import Mathlib

/-!
A shallow embedding, in Lean 4, of the core logic of the Moodify
emotion-based recommendation system: the static per-emotion fallback
content tables, the recommendation aggregation endpoint, the Spotify
client and its token handling, the Spotify token-refresh endpoint, and
the emotion-detection provider chain (Face++, Azure Face, Google Vision
and the local emotion simulator).

External HTTP calls, environment credentials and `Math.random()` draws
are modelled as oracle fields of explicit "world" structures; JavaScript
numbers are modelled as rationals; JavaScript string-keyed objects are
modelled as insertion-ordered association lists.
-/

/- ### Generic helpers mirroring JavaScript operations -/

/-- JS object property lookup `table[key]` over an insertion-ordered
association list, with `|| default` semantics for a missing key. -/
def jsLookupD (table : List (String × α)) (key : String) (d : α) : α :=
  (table.lookup key).getD d

/-- Swap two positions of a list (no-op when an index is out of bounds);
mirrors the JS destructuring swap `[a[i], a[j]] = [a[j], a[i]]`. -/
def listSwap (l : List α) (i j : Nat) : List α :=
  match l.get? i, l.get? j with
  | some x, some y => (l.set i y).set j x
  | _, _ => l

/-- One pass of the Fisher-Yates shuffle loop
`for (let i = n-1; i > 0; i--) { j = floor(random()*(i+1)); swap(i, j) }`;
the oracle `rand i` supplies `floor(random()*(i+1))`, reduced mod `i+1`
exactly as the JS value is always in `[0, i]`. -/
def shuffleGo (rand : Nat → Nat) : Nat → List α → List α
  | 0, l => l
  | i + 1, l => shuffleGo rand i (listSwap l (i + 1) (rand (i + 1) % (i + 2)))

/-- The in-place Fisher-Yates shuffle used by the content recommender. -/
def shuffleWith (rand : Nat → Nat) (l : List α) : List α :=
  shuffleGo rand (l.length - 1) l

/-- De-duplication by a key, mirroring the `seen = new Set(); for (...) if
(!seen.has(k)) { out.push(x); seen.add(k) }` pattern of the source. -/
def dedupeBy (key : α → String) : List α → List String → List α
  | [], _ => []
  | x :: rest, seen =>
      if key x ∈ seen then dedupeBy key rest seen
      else x :: dedupeBy key rest (key x :: seen)

/-- The `let max = 0; forEach(... if (v > max) { max = v; dom = k })`
dominant-emotion accumulation used by every provider mapper. -/
def argmaxFold : List (String × ℚ) → String → ℚ → String × ℚ
  | [], dom, mx => (dom, mx)
  | (k, v) :: rest, dom, mx =>
      if mx < v then argmaxFold rest k v else argmaxFold rest dom mx

/-- Sum of the values of an emotion distribution. -/
def sumDist (l : List (String × ℚ)) : ℚ :=
  (l.map Prod.snd).foldr (fun a b => a + b) 0

/-- `n.toString().padStart(2, "0")` for the seconds of a track duration. -/
def pad2 (n : Nat) : String :=
  if n < 10 then "0" ++ toString n else toString n

/-- The track-duration rendering
`floor(ms/60000) + ":" + pad2(floor((ms % 60000)/1000))`. -/
def formatDuration (ms : Nat) : String :=
  toString (ms / 60000) ++ ":" ++ pad2 ((ms % 60000) / 1000)

/-- Modelled from the spec: the JS builtin `encodeURIComponent`, used by
the source only to build outbound search links; no claim depends on the
precise percent-encoding, so it is modelled as the identity injection. -/
def encodeURIComponent (s : String) : String := s

/- ### The provider-agnostic RecommendationItem shape -/

/-- The uniform recommendation card record of the source
(`interface Recommendation` in the recommendations route). -/
structure Recommendation where
  id : String
  title : String
  description : String
  image : String
  link : String
  rating : ℚ
  preview_url : Option String := none
deriving Repr, DecidableEq

/-- The seven canonical emotion labels (`type Emotion` in the source). -/
def canonicalEmotions : List String :=
  ["happy", "sad", "angry", "surprised", "neutral", "disgust", "fear"]

/- ### Static fallback content tables (recommendations route) -/

/-- The `happy` entry of the static table inside `getFallbackMovies`. -/
def fallbackMovies_happy : List Recommendation := [
  ⟨"1", "The Grand Budapest Hotel", "A whimsical comedy-drama that will keep your spirits high with its colorful visuals and witty dialogue.", "https://image.tmdb.org/t/p/w300/eWdyYQreja6JGCzqHWXpWHDrrPo.jpg", "https://www.themoviedb.org/movie/120467", (8.1 : ℚ), none⟩,
  ⟨"2", "Paddington 2", "Heartwarming family film that spreads joy and positivity with every scene.", "https://image.tmdb.org/t/p/w300/2Hd6rNaSBT5Hf3wqQz47p9PipGh.jpg", "https://www.themoviedb.org/movie/346648", (8.2 : ℚ), none⟩,
  ⟨"3", "The Princess Bride", "A timeless adventure filled with romance, humor, and unforgettable characters.", "https://image.tmdb.org/t/p/w300/gpxjoP0yvRiCNHLbJukbEZnJmJv.jpg", "https://www.themoviedb.org/movie/2493", (8.0 : ℚ), none⟩
]

/-- The `sad` entry of the static table inside `getFallbackMovies`. -/
def fallbackMovies_sad : List Recommendation := [
  ⟨"1", "Inside Out", "Pixar masterpiece that helps understand and process complex emotions with empathy and wisdom.", "https://image.tmdb.org/t/p/w300/aAmfIX3TT40zUHGcCKrlOZRKC7u.jpg", "https://www.themoviedb.org/movie/150540", (8.1 : ℚ), none⟩,
  ⟨"2", "A Monster Calls", "Beautiful story about dealing with grief and finding strength in difficult times.", "https://image.tmdb.org/t/p/w300/2DJvLTApaNMnAdZRFH4DWlhf3S5.jpg", "https://www.themoviedb.org/movie/258230", (7.5 : ℚ), none⟩,
  ⟨"3", "Good Will Hunting", "Inspiring drama about healing, friendship, and discovering your potential.", "https://image.tmdb.org/t/p/w300/bABCBKYBK7A5G1x0FzoeoNfuj2.jpg", "https://www.themoviedb.org/movie/2268", (8.3 : ℚ), none⟩
]

/-- The `neutral` entry of the static table inside `getFallbackMovies`. -/
def fallbackMovies_neutral : List Recommendation := [
  ⟨"1", "The Shawshank Redemption", "Timeless drama about hope, friendship, and the resilience of the human spirit.", "https://image.tmdb.org/t/p/w300/lyQBXzOQSuE59IsHyhrp0qIiPAz.jpg", "https://www.themoviedb.org/movie/278", (9.3 : ℚ), none⟩,
  ⟨"2", "Forrest Gump", "Heartwarming story of an extraordinary life lived with simplicity and kindness.", "https://image.tmdb.org/t/p/w300/arw2vcBveWOVZr6pxd9XTd1TdQa.jpg", "https://www.themoviedb.org/movie/13", (8.8 : ℚ), none⟩,
  ⟨"3", "The Pursuit of Happyness", "Inspiring true story about perseverance and the pursuit of the American Dream.", "https://image.tmdb.org/t/p/w300/acaFriusFRGJ7riCamTh2mrjJdq.jpg", "https://www.themoviedb.org/movie/1402", (8.0 : ℚ), none⟩
]

/-- The `angry` entry of the static table inside `getFallbackMovies`. -/
def fallbackMovies_angry : List Recommendation := [
  ⟨"1", "The Karate Kid", "Classic film about channeling anger into discipline and finding inner strength through martial arts.", "https://image.tmdb.org/t/p/w300/9mG4BMqk9gQMpJoNjF0cHTAdPDK.jpg", "https://www.themoviedb.org/movie/1885", (7.2 : ℚ), none⟩,
  ⟨"2", "Rocky", "Inspiring underdog story about determination, hard work, and never giving up.", "https://image.tmdb.org/t/p/w300/i5xiwqQIjX8RM20Tf4UB4gcXGNk.jpg", "https://www.themoviedb.org/movie/1366", (8.1 : ℚ), none⟩,
  ⟨"3", "Peaceful Warrior", "Philosophical drama about finding inner peace and transforming anger into wisdom.", "https://image.tmdb.org/t/p/w300/9eQ4wKW2LzOVuubQVFdJhgxXGo.jpg", "https://www.themoviedb.org/movie/13155", (7.2 : ℚ), none⟩
]

/-- The `surprised` entry of the static table inside `getFallbackMovies`. -/
def fallbackMovies_surprised : List Recommendation := [
  ⟨"1", "Inception", "Mind-bending sci-fi masterpiece that will keep you guessing and surprised until the very end.", "https://image.tmdb.org/t/p/w300/8IB2e4r4oVhHnANbnm7O3Tj6tF8.jpg", "https://www.themoviedb.org/movie/27205", (8.8 : ℚ), none⟩,
  ⟨"2", "The Sixth Sense", "Supernatural thriller with one of cinema\x27s most shocking and memorable plot twists.", "https://image.tmdb.org/t/p/w300/fIssD3w3SvIhPPmVo4WMgZDVLID.jpg", "https://www.themoviedb.org/movie/745", (8.1 : ℚ), none⟩,
  ⟨"3", "Shutter Island", "Psychological thriller that will leave you questioning reality until the final revelation.", "https://image.tmdb.org/t/p/w300/4GDy0PHYX3VRXUtwK5ysFbg3kEx.jpg", "https://www.themoviedb.org/movie/11324", (8.2 : ℚ), none⟩
]

/-- The `disgust` entry of the static table inside `getFallbackMovies`. -/
def fallbackMovies_disgust : List Recommendation := [
  ⟨"1", "WALL-E", "Beautiful Pixar film about environmental consciousness and finding beauty in unexpected places.", "/placeholder.svg?height=200&width=150&text=üé¨", "https://www.themoviedb.org/movie/10681", (8.4 : ℚ), none⟩,
  ⟨"2", "My Neighbor Totoro", "Wholesome Studio Ghibli film that celebrates nature, family, and childhood wonder.", "/placeholder.svg?height=200&width=150&text=üé¨", "https://www.themoviedb.org/movie/8392", (8.2 : ℚ), none⟩,
  ⟨"3", "The Secret Garden", "Uplifting story about healing, growth, and the transformative power of nature.", "/placeholder.svg?height=200&width=150&text=üé¨", "https://www.themoviedb.org/movie/3078", (7.3 : ℚ), none⟩
]

/-- The `fear` entry of the static table inside `getFallbackMovies`. -/
def fallbackMovies_fear : List Recommendation := [
  ⟨"1", "Finding Nemo", "Inspiring Pixar film about overcoming fears, anxiety, and finding courage in the face of danger.", "/placeholder.svg?height=200&width=150&text=üé¨", "https://www.themoviedb.org/movie/12", (8.2 : ℚ), none⟩,
  ⟨"2", "The Lion King", "Epic tale about facing your fears, accepting responsibility, and finding your courage.", "/placeholder.svg?height=200&width=150&text=üé¨", "https://www.themoviedb.org/movie/8587", (8.5 : ℚ), none⟩,
  ⟨"3", "Brave", "Pixar adventure about a young princess who must overcome her fears to save her kingdom.", "/placeholder.svg?height=200&width=150&text=üé¨", "https://www.themoviedb.org/movie/62177", (7.1 : ℚ), none⟩
]

/-- The emotion-keyed table literal inside `getFallbackMovies`, in source order. -/
def fallbackMoviesTable : List (String × List Recommendation) := [
  ("happy", fallbackMovies_happy),
  ("sad", fallbackMovies_sad),
  ("neutral", fallbackMovies_neutral),
  ("angry", fallbackMovies_angry),
  ("surprised", fallbackMovies_surprised),
  ("disgust", fallbackMovies_disgust),
  ("fear", fallbackMovies_fear)
]

/-- `getFallbackMovies(emotion)`: static per-emotion list with
`fallbacks[emotion] || fallbacks.neutral` lookup semantics. -/
def getFallbackMovies (emotion : String) : List Recommendation :=
  jsLookupD fallbackMoviesTable emotion fallbackMovies_neutral

/-- The `happy` entry of the static table inside `getFallbackSongs`. -/
def fallbackSongs_happy : List Recommendation := [
  ⟨"1", "Happy - Pharrell Williams", "Upbeat anthem that spreads pure joy and infectious positivity ‚Ä¢ 3:53", "https://i.scdn.co/image/ab67616d0000b273e0c8c2de09d1d134c6783b18", "https://open.spotify.com/search/happy%20pharrell", (4.8 : ℚ), none⟩,
  ⟨"2", "Good as Hell - Lizzo", "Empowering pop hit that boosts confidence and self-love ‚Ä¢ 2:39", "https://i.scdn.co/image/ab67616d0000b273c9b6a4b8aba734b8b2f7afc6", "https://open.spotify.com/search/good%20as%20hell%20lizzo", (4.7 : ℚ), none⟩,
  ⟨"3", "Walking on Sunshine - Katrina and the Waves", "Classic feel-good song that never gets old and always lifts spirits ‚Ä¢ 3:58", "https://i.scdn.co/image/ab67616d0000b273ecb9b3c4f5e1ba15a38fb667", "https://open.spotify.com/search/walking%20on%20sunshine", (4.6 : ℚ), none⟩
]

/-- The `sad` entry of the static table inside `getFallbackSongs`. -/
def fallbackSongs_sad : List Recommendation := [
  ⟨"1", "Here Comes the Sun - The Beatles", "Gentle reminder that difficult times will pass and brighter days are ahead ‚Ä¢ 3:05", "https://i.scdn.co/image/ab67616d0000b273dc30583ba717007b00cceb25", "https://open.spotify.com/search/here%20comes%20the%20sun%20beatles", (4.9 : ℚ), none⟩,
  ⟨"2", "Three Little Birds - Bob Marley", "Soothing reggae song about not worrying and trusting that everything will be alright ‚Ä¢ 3:00", "https://i.scdn.co/image/ab67616d0000b273e4e3c3b3b85c6b2b4b2bc2b1", "https://open.spotify.com/search/three%20little%20birds%20marley", (4.8 : ℚ), none⟩,
  ⟨"3", "Lean on Me - Bill Withers", "Comforting song about friendship, support, and being there for each other ‚Ä¢ 4:17", "https://i.scdn.co/image/ab67616d0000b2734bb80f29cf4b72ef7c4c6b7e", "https://open.spotify.com/search/lean%20on%20me%20withers", (4.7 : ℚ), none⟩
]

/-- The `neutral` entry of the static table inside `getFallbackSongs`. -/
def fallbackSongs_neutral : List Recommendation := [
  ⟨"1", "Hotel California - Eagles", "Iconic rock song with mysterious lyrics and timeless appeal ‚Ä¢ 6:30", "https://i.scdn.co/image/ab67616d0000b2734637341b9f507521afa9a778", "https://open.spotify.com/search/hotel%20california%20eagles", (4.8 : ℚ), none⟩,
  ⟨"2", "Bohemian Rhapsody - Queen", "Epic masterpiece with unexpected musical journey and dramatic changes ‚Ä¢ 5:55", "https://i.scdn.co/image/ab67616d0000b273e319baafd16e84f0408c5153", "https://open.spotify.com/search/bohemian%20rhapsody%20queen", (4.9 : ℚ), none⟩,
  ⟨"3", "Imagine - John Lennon", "Timeless anthem of peace and hope that resonates across generations ‚Ä¢ 3:07", "https://i.scdn.co/image/ab67616d0000b2738b662db62ee3d5b85d394ebb", "https://open.spotify.com/search/imagine%20john%20lennon", (4.8 : ℚ), none⟩
]

/-- The `angry` entry of the static table inside `getFallbackSongs`. -/
def fallbackSongs_angry : List Recommendation := [
  ⟨"1", "Eye of the Tiger - Survivor", "Powerful rock anthem for channeling anger into determination and strength ‚Ä¢ 4:04", "/placeholder.svg?height=200&width=200&text=üéµ", "https://open.spotify.com/search/eye%20of%20the%20tiger%20survivor", (4.6 : ℚ), none⟩,
  ⟨"2", "Breathe Me - Sia", "Emotional song for processing anger and finding inner peace ‚Ä¢ 4:31", "/placeholder.svg?height=200&width=200&text=üéµ", "https://open.spotify.com/search/breathe%20me%20sia", (4.5 : ℚ), none⟩,
  ⟨"3", "Stronger - Kelly Clarkson", "Empowering anthem about resilience and turning pain into strength ‚Ä¢ 3:42", "/placeholder.svg?height=200&width=200&text=üéµ", "https://open.spotify.com/search/stronger%20kelly%20clarkson", (4.4 : ℚ), none⟩
]

/-- The `surprised` entry of the static table inside `getFallbackSongs`. -/
def fallbackSongs_surprised : List Recommendation := [
  ⟨"1", "Bohemian Rhapsody - Queen", "Epic song with unexpected musical journey and dramatic changes ‚Ä¢ 5:55", "/placeholder.svg?height=200&width=200&text=üéµ", "https://open.spotify.com/search/bohemian%20rhapsody%20queen", (4.9 : ℚ), none⟩,
  ⟨"2", "Thunderstruck - AC/DC", "High-energy rock anthem with electrifying surprises and powerful vocals ‚Ä¢ 4:52", "/placeholder.svg?height=200&width=200&text=üéµ", "https://open.spotify.com/search/thunderstruck%20acdc", (4.7 : ℚ), none⟩,
  ⟨"3", "Mr. Blue Sky - Electric Light Orchestra", "Uplifting orchestral pop with unexpected arrangements and joyful surprises ‚Ä¢ 5:03", "/placeholder.svg?height=200&width=200&text=üéµ", "https://open.spotify.com/search/mr%20blue%20sky%20elo", (4.6 : ℚ), none⟩
]

/-- The `disgust` entry of the static table inside `getFallbackSongs`. -/
def fallbackSongs_disgust : List Recommendation := [
  ⟨"1", "What a Wonderful World - Louis Armstrong", "Beautiful song that restores faith in goodness and beauty ‚Ä¢ 2:21", "/placeholder.svg?height=200&width=200&text=üéµ", "https://open.spotify.com/search/wonderful%20world%20armstrong", (4.8 : ℚ), none⟩,
  ⟨"2", "Over the Rainbow - Judy Garland", "Timeless classic about hope, dreams, and finding beauty beyond troubles ‚Ä¢ 2:42", "/placeholder.svg?height=200&width=200&text=üéµ", "https://open.spotify.com/search/over%20the%20rainbow%20judy%20garland", (4.7 : ℚ), none⟩,
  ⟨"3", "Pure Imagination - Gene Wilder", "Whimsical song that celebrates creativity and the power of positive thinking ‚Ä¢ 3:15", "/placeholder.svg?height=200&width=200&text=üéµ", "https://open.spotify.com/search/pure%20imagination%20gene%20wilder", (4.5 : ℚ), none⟩
]

/-- The `fear` entry of the static table inside `getFallbackSongs`. -/
def fallbackSongs_fear : List Recommendation := [
  ⟨"1", "Brave - Sara Bareilles", "Empowering anthem about finding courage and speaking your truth ‚Ä¢ 4:20", "/placeholder.svg?height=200&width=200&text=üéµ", "https://open.spotify.com/search/brave%20sara%20bareilles", (4.6 : ℚ), none⟩,
  ⟨"2", "Fight Song - Rachel Platten", "Inspiring anthem about inner strength and overcoming fear with determination ‚Ä¢ 3:23", "/placeholder.svg?height=200&width=200&text=üéµ", "https://open.spotify.com/search/fight%20song%20rachel%20platten", (4.4 : ℚ), none⟩,
  ⟨"3", "Roar - Katy Perry", "Uplifting pop anthem about finding your voice and conquering your fears ‚Ä¢ 3:43", "/placeholder.svg?height=200&width=200&text=üéµ", "https://open.spotify.com/search/roar%20katy%20perry", (4.3 : ℚ), none⟩
]

/-- The emotion-keyed table literal inside `getFallbackSongs`, in source order. -/
def fallbackSongsTable : List (String × List Recommendation) := [
  ("happy", fallbackSongs_happy),
  ("sad", fallbackSongs_sad),
  ("neutral", fallbackSongs_neutral),
  ("angry", fallbackSongs_angry),
  ("surprised", fallbackSongs_surprised),
  ("disgust", fallbackSongs_disgust),
  ("fear", fallbackSongs_fear)
]

/-- `getFallbackSongs(emotion)`: static per-emotion list with
`fallbacks[emotion] || fallbacks.neutral` lookup semantics. -/
def getFallbackSongs (emotion : String) : List Recommendation :=
  jsLookupD fallbackSongsTable emotion fallbackSongs_neutral

/-- The `happy` entry of the static table inside `getGoodreadsStyleBooks`. -/
def goodreadsBooks_happy : List Recommendation := [
  ⟨"1", "The Seven Husbands of Evelyn Hugo", "A reclusive Hollywood icon finally tells her story - filled with ambition, love, and secrets that will captivate you until the very last page.", "https://images-na.ssl-images-amazon.com/images/S/compressed.photo.goodreads.com/books/1618329605i/32620332.jpg", "https://www.goodreads.com/book/show/32620332-the-seven-husbands-of-evelyn-hugo", (4.4 : ℚ), none⟩,
  ⟨"2", "Beach Read", "Two rival writers who end up stuck next to each other in beach houses challenge each other to write outside their comfort zones.", "https://images-na.ssl-images-amazon.com/images/S/compressed.photo.goodreads.com/books/1577910950i/52867387.jpg", "https://www.goodreads.com/book/show/52867387-beach-read", (4.1 : ℚ), none⟩,
  ⟨"3", "The House in the Cerulean Sea", "A magical and uplifting story about found family, second chances, and the power of choosing love over fear.", "https://images-na.ssl-images-amazon.com/images/S/compressed.photo.goodreads.com/books/1575927555i/45047384.jpg", "https://www.goodreads.com/book/show/45047384-the-house-in-the-cerulean-sea", (4.3 : ℚ), none⟩
]

/-- The `sad` entry of the static table inside `getGoodreadsStyleBooks`. -/
def goodreadsBooks_sad : List Recommendation := [
  ⟨"1", "A Man Called Ove", "A heartbreaking and hilarious story about grief, love, and the importance of human connection that will restore your faith in humanity.", "https://images-na.ssl-images-amazon.com/images/S/compressed.photo.goodreads.com/books/1405259930i/18774964.jpg", "https://www.goodreads.com/book/show/18774964-a-man-called-ove", (4.4 : ℚ), none⟩,
  ⟨"2", "The Book Thief", "A devastating, beautiful story about the power of words and books to sustain us through the darkest times.", "https://images-na.ssl-images-amazon.com/images/S/compressed.photo.goodreads.com/books/1522157426i/19063.jpg", "https://www.goodreads.com/book/show/19063.The_Book_Thief", (4.4 : ℚ), none⟩,
  ⟨"3", "Me Before You", "A heart-wrenching love story that will make you laugh, cry, and think about what it means to truly live.", "https://images-na.ssl-images-amazon.com/images/S/compressed.photo.goodreads.com/books/1396366690i/15507958.jpg", "https://www.goodreads.com/book/show/15507958-me-before-you", (4.3 : ℚ), none⟩
]

/-- The `neutral` entry of the static table inside `getGoodreadsStyleBooks`. -/
def goodreadsBooks_neutral : List Recommendation := [
  ⟨"1", "Educated", "A powerful memoir about education, family, and the fierce power of knowledge to transform a life.", "https://images-na.ssl-images-amazon.com/images/S/compressed.photo.goodreads.com/books/1506026635i/35133922.jpg", "https://www.goodreads.com/book/show/35133922-educated", (4.4 : ℚ), none⟩,
  ⟨"2", "Atomic Habits", "A practical guide to building good habits and breaking bad ones, with actionable strategies for lasting change.", "https://images-na.ssl-images-amazon.com/images/S/compressed.photo.goodreads.com/books/1535115320i/40121378.jpg", "https://www.goodreads.com/book/show/40121378-atomic-habits", (4.4 : ℚ), none⟩,
  ⟨"3", "Where the Crawdads Sing", "A mystery and coming-of-age story set in the atmospheric North Carolina marshlands.", "https://images-na.ssl-images-amazon.com/images/S/compressed.photo.goodreads.com/books/1582135294i/36809135.jpg", "https://www.goodreads.com/book/show/36809135-where-the-crawdads-sing", (4.4 : ℚ), none⟩
]

/-- The `angry` entry of the static table inside `getGoodreadsStyleBooks`. -/
def goodreadsBooks_angry : List Recommendation := [
  ⟨"1", "The Power", "A provocative exploration of power, gender, and society that will challenge your perspective on the world.", "https://images-na.ssl-images-amazon.com/images/S/compressed.photo.goodreads.com/books/1465761687i/29751398.jpg", "https://www.goodreads.com/book/show/29751398-the-power", (3.9 : ℚ), none⟩,
  ⟨"2", "The Rage of Dragons", "Epic fantasy filled with intense action, political intrigue, and a protagonist driven by the need for revenge.", "https://images-na.ssl-images-amazon.com/images/S/compressed.photo.goodreads.com/books/1548356842i/41952489.jpg", "https://www.goodreads.com/book/show/41952489-the-rage-of-dragons", (4.3 : ℚ), none⟩,
  ⟨"3", "The Power of Now", "A spiritual guide to finding peace and presence, perfect for channeling intense emotions into mindfulness.", "https://images-na.ssl-images-amazon.com/images/S/compressed.photo.goodreads.com/books/1386925471i/6708.jpg", "https://www.goodreads.com/book/show/6708.The_Power_of_Now", (4.1 : ℚ), none⟩
]

/-- The `surprised` entry of the static table inside `getGoodreadsStyleBooks`. -/
def goodreadsBooks_surprised : List Recommendation := [
  ⟨"1", "The Silent Patient", "A shocking psychological thriller with a twist ending that will leave you speechless and questioning everything.", "https://images-na.ssl-images-amazon.com/images/S/compressed.photo.goodreads.com/books/1547731548i/40097951.jpg", "https://www.goodreads.com/book/show/40097951-the-silent-patient", (4.1 : ℚ), none⟩,
  ⟨"2", "Gone Girl", "A twisted psychological thriller that will keep you guessing until the very last page with shocking revelations.", "https://images-na.ssl-images-amazon.com/images/S/compressed.photo.goodreads.com/books/1554086139i/19288043.jpg", "https://www.goodreads.com/book/show/19288043-gone-girl", (4.0 : ℚ), none⟩,
  ⟨"3", "The Midnight Library", "A thought-provoking exploration of life\x27s infinite possibilities that will surprise you with its depth and wisdom.", "https://images-na.ssl-images-amazon.com/images/S/compressed.photo.goodreads.com/books/1602190253i/52578297.jpg", "https://www.goodreads.com/book/show/52578297-the-midnight-library", (4.1 : ℚ), none⟩
]

/-- The `disgust` entry of the static table inside `getGoodreadsStyleBooks`. -/
def goodreadsBooks_disgust : List Recommendation := [
  ⟨"1", "The Alchemist", "A beautiful, inspiring tale about following your dreams and listening to your heart that will restore your faith in goodness.", "https://images-na.ssl-images-amazon.com/images/S/compressed.photo.goodreads.com/books/1654371463i/18144590.jpg", "https://www.goodreads.com/book/show/18144590-the-alchemist", (3.9 : ℚ), none⟩,
  ⟨"2", "A Good Girl\x27s Guide to Murder", "A gripping mystery that will cleanse your palate with its engaging plot and likeable characters.", "https://images-na.ssl-images-amazon.com/images/S/compressed.photo.goodreads.com/books/1556134336i/43306540.jpg", "https://www.goodreads.com/book/show/43306540-a-good-girl-s-guide-to-murder", (4.4 : ℚ), none⟩,
  ⟨"3", "The Thursday Murder Club", "A delightful cozy mystery with charming characters that will restore your faith in humanity and justice.", "https://images-na.ssl-images-amazon.com/images/S/compressed.photo.goodreads.com/books/1585242967i/46000520.jpg", "https://www.goodreads.com/book/show/46000520-the-thursday-murder-club", (4.2 : ℚ), none⟩
]

/-- The `fear` entry of the static table inside `getGoodreadsStyleBooks`. -/
def goodreadsBooks_fear : List Recommendation := [
  ⟨"1", "Anxious People", "A heartwarming story about human connection and understanding that will help you feel less alone in your fears.", "https://images-na.ssl-images-amazon.com/images/S/compressed.photo.goodreads.com/books/1597937463i/49127718.jpg", "https://www.goodreads.com/book/show/49127718-anxious-people", (4.2 : ℚ), none⟩,
  ⟨"2", "The Cozy Life", "A gentle guide to finding comfort and contentment in life\x27s simple pleasures, perfect for anxious moments.", "https://images-na.ssl-images-amazon.com/images/S/compressed.photo.goodreads.com/books/1569258914i/46819737.jpg", "https://www.goodreads.com/book/show/46819737-the-cozy-life", (4.0 : ℚ), none⟩,
  ⟨"3", "Maybe You Should Talk to Someone", "A therapist\x27s own journey through therapy - honest, funny, and deeply reassuring about facing our fears.", "https://images-na.ssl-images-amazon.com/images/S/compressed.photo.goodreads.com/books/1549042097i/37570546.jpg", "https://www.goodreads.com/book/show/37570546-maybe-you-should-talk-to-someone", (4.4 : ℚ), none⟩
]

/-- The emotion-keyed table literal inside `getGoodreadsStyleBooks`, in source order. -/
def goodreadsBooksTable : List (String × List Recommendation) := [
  ("happy", goodreadsBooks_happy),
  ("sad", goodreadsBooks_sad),
  ("neutral", goodreadsBooks_neutral),
  ("angry", goodreadsBooks_angry),
  ("surprised", goodreadsBooks_surprised),
  ("disgust", goodreadsBooks_disgust),
  ("fear", goodreadsBooks_fear)
]

/-- `getGoodreadsStyleBooks(emotion)`: static per-emotion list with
`fallbacks[emotion] || fallbacks.neutral` lookup semantics. -/
def getGoodreadsStyleBooks (emotion : String) : List Recommendation :=
  jsLookupD goodreadsBooksTable emotion goodreadsBooks_neutral

/-- The `happy` entry of the static table inside `getFallbackBooks`. -/
def fallbackBooks_happy : List Recommendation := [
  ⟨"1", "The Alchemist", "Inspiring tale about following your dreams and listening to your heart", "/placeholder.svg?height=250&width=180&text=üìö", "https://www.goodreads.com/book/show/865.The_Alchemist", (4.2 : ℚ), none⟩,
  ⟨"2", "The Happiness Project", "Practical guide to finding joy and contentment in everyday life", "/placeholder.svg?height=250&width=180&text=üìö", "https://www.goodreads.com/book/show/6398634", (3.9 : ℚ), none⟩,
  ⟨"3", "Yes Please", "Amy Poehler\x27s hilarious and heartfelt memoir about life, love, and laughter", "/placeholder.svg?height=250&width=180&text=üìö", "https://www.goodreads.com/book/show/20910157", (4.1 : ℚ), none⟩
]

/-- The `sad` entry of the static table inside `getFallbackBooks`. -/
def fallbackBooks_sad : List Recommendation := [
  ⟨"1", "The Book Thief", "Beautiful story about finding hope in dark times through the power of words", "/placeholder.svg?height=250&width=180&text=üìö", "https://www.goodreads.com/book/show/19063.The_Book_Thief", (4.4 : ℚ), none⟩,
  ⟨"2", "A Man Called Ove", "Heartwarming story about grief, love, and the importance of human connection", "/placeholder.svg?height=250&width=180&text=ÔøΩÔøΩÔøΩ", "https://www.goodreads.com/book/show/18774964", (4.4 : ℚ), none⟩,
  ⟨"3", "The Light We Lost", "Moving story about love, loss, and the choices that shape our lives", "/placeholder.svg?height=250&width=180&text=üìö", "https://www.goodreads.com/book/show/29430584", (4.0 : ℚ), none⟩
]

/-- The `neutral` entry of the static table inside `getFallbackBooks`. -/
def fallbackBooks_neutral : List Recommendation := [
  ⟨"1", "To Kill a Mockingbird", "Classic novel about justice, morality, and growing up in the American South", "/placeholder.svg?height=250&width=180&text=üìö", "https://www.goodreads.com/book/show/2657.To_Kill_a_Mockingbird", (4.3 : ℚ), none⟩,
  ⟨"2", "The Great Gatsby", "Timeless American classic about dreams, wealth, and the pursuit of happiness", "/placeholder.svg?height=250&width=180&text=üìö", "https://www.goodreads.com/book/show/4671.The_Great_Gatsby", (3.9 : ℚ), none⟩,
  ⟨"3", "1984", "Dystopian masterpiece about freedom, truth, and the power of independent thought", "/placeholder.svg?height=250&width=180&text=üìö", "https://www.goodreads.com/book/show/5470.1984", (4.2 : ℚ), none⟩
]

/-- The `angry` entry of the static table inside `getFallbackBooks`. -/
def fallbackBooks_angry : List Recommendation := [
  ⟨"1", "The Power of Now", "Guide to mindfulness and emotional control for managing anger and frustration", "/placeholder.svg?height=250&width=180&text=üìö", "https://www.goodreads.com/book/show/6708.The_Power_of_Now", (4.1 : ℚ), none⟩,
  ⟨"2", "Anger: Wisdom for Cooling the Flames", "Buddhist approach to understanding and transforming anger into compassion", "/placeholder.svg?height=250&width=180&text=üìö", "https://www.goodreads.com/book/show/95747.Anger", (4.3 : ℚ), none⟩,
  ⟨"3", "The Gifts of Imperfection", "Bren√© Brown\x27s guide to letting go of perfectionism and embracing authenticity", "/placeholder.svg?height=250&width=180&text=üìö", "https://www.goodreads.com/book/show/7015403", (4.2 : ℚ), none⟩
]

/-- The `surprised` entry of the static table inside `getFallbackBooks`. -/
def fallbackBooks_surprised : List Recommendation := [
  ⟨"1", "Gone Girl", "Psychological thriller with shocking plot twists that will keep you surprised", "/placeholder.svg?height=250&width=180&text=üìö", "https://www.goodreads.com/book/show/19288043", (4.0 : ℚ), none⟩,
  ⟨"2", "The Girl with the Dragon Tattoo", "Gripping mystery with unexpected revelations and complex characters", "/placeholder.svg?height=250&width=180&text=üìö", "https://www.goodreads.com/book/show/2429135", (4.1 : ℚ), none⟩,
  ⟨"3", "Big Little Lies", "Domestic drama with surprising twists about secrets, lies, and friendship", "/placeholder.svg?height=250&width=180&text=üìö", "https://www.goodreads.com/book/show/19486412", (4.3 : ℚ), none⟩
]

/-- The `disgust` entry of the static table inside `getFallbackBooks`. -/
def fallbackBooks_disgust : List Recommendation := [
  ⟨"1", "The Little Prince", "Innocent tale that restores wonder and purity to the world", "/placeholder.svg?height=250&width=180&text=üìö", "https://www.goodreads.com/book/show/157993.The_Little_Prince", (4.3 : ℚ), none⟩,
  ⟨"2", "Charlotte\x27s Web", "Timeless story of friendship, loyalty, and the beauty of simple kindness", "/placeholder.svg?height=250&width=180&text=üìö", "https://www.goodreads.com/book/show/24178.Charlotte_s_Web", (4.2 : ℚ), none⟩,
  ⟨"3", "The Secret Garden", "Classic tale about healing, growth, and the transformative power of nature", "/placeholder.svg?height=250&width=180&text=üìö", "https://www.goodreads.com/book/show/2998.The_Secret_Garden", (4.1 : ℚ), none⟩
]

/-- The `fear` entry of the static table inside `getFallbackBooks`. -/
def fallbackBooks_fear : List Recommendation := [
  ⟨"1", "Feel the Fear and Do It Anyway", "Self-help guide to overcoming anxiety and fear with practical strategies", "/placeholder.svg?height=250&width=180&text=üìö", "https://www.goodreads.com/book/show/9457.Feel_the_Fear_and_Do_It_Anyway", (4.0 : ℚ), none⟩,
  ⟨"2", "The Confidence Code", "Research-based guide to building confidence and overcoming self-doubt", "/placeholder.svg?height=250&width=180&text=üìö", "https://www.goodreads.com/book/show/18693653", (3.9 : ℚ), none⟩,
  ⟨"3", "Daring Greatly", "Bren√© Brown\x27s powerful book about vulnerability, courage, and overcoming fear", "/placeholder.svg?height=250&width=180&text=üìö", "https://www.goodreads.com/book/show/13588356", (4.3 : ℚ), none⟩
]

/-- The emotion-keyed table literal inside `getFallbackBooks`, in source order. -/
def fallbackBooksTable : List (String × List Recommendation) := [
  ("happy", fallbackBooks_happy),
  ("sad", fallbackBooks_sad),
  ("neutral", fallbackBooks_neutral),
  ("angry", fallbackBooks_angry),
  ("surprised", fallbackBooks_surprised),
  ("disgust", fallbackBooks_disgust),
  ("fear", fallbackBooks_fear)
]

/-- `getFallbackBooks(emotion)`: static per-emotion list with
`fallbacks[emotion] || fallbacks.neutral` lookup semantics. -/
def getFallbackBooks (emotion : String) : List Recommendation :=
  jsLookupD fallbackBooksTable emotion fallbackBooks_neutral

/- ### The emotion-to-query configuration table (recommendations route) -/

/-- The per-emotion Spotify song configuration of `emotionConfig`. -/
structure SongConfig where
  queries : List String
  genres : List String
  audioFeatures : List (String × ℚ)
deriving Repr, DecidableEq

/-- One `emotionConfig` entry: movie queries, song config, book queries. -/
structure EmotionConfigEntry where
  movies : List String
  songs : SongConfig
  books : List String
deriving Repr, DecidableEq

/-- The `emotionConfig` table of the recommendations route, in source
order. -/
def emotionConfig : List (String × EmotionConfigEntry) := [
  ("happy",
    { movies := ["comedy", "feel good", "uplifting", "musical", "adventure"],
      songs := { queries := ["happy", "upbeat", "celebration", "dance", "feel good", "party", "joy", "sunshine", "positive"],
                 genres := ["pop", "dance", "funk", "disco", "happy", "party"],
                 audioFeatures := [("valence", 0.8), ("energy", 0.7), ("danceability", 0.7)] },
      books := ["humor", "romance", "adventure", "self help", "inspiration"] }),
  ("sad",
    { movies := ["drama", "inspiring", "hope", "healing", "uplifting"],
      songs := { queries := ["sad", "melancholy", "emotional", "heartbreak", "comfort", "healing", "slow", "ballad"],
                 genres := ["acoustic", "indie", "folk", "blues", "soul", "sad"],
                 audioFeatures := [("valence", 0.3), ("energy", 0.4), ("acousticness", 0.6)] },
      books := ["healing", "memoir", "philosophy", "comfort", "hope"] }),
  ("angry",
    { movies := ["action", "martial arts", "sports", "comedy", "peaceful"],
      songs := { queries := ["rock", "metal", "aggressive", "intense", "powerful", "energy", "strong"],
                 genres := ["rock", "metal", "punk", "alternative", "hard-rock"],
                 audioFeatures := [("valence", 0.4), ("energy", 0.8), ("loudness", -5)] },
      books := ["mindfulness", "anger management", "philosophy", "meditation", "psychology"] }),
  ("surprised",
    { movies := ["thriller", "mystery", "sci-fi", "plot twist", "suspense"],
      songs := { queries := ["experimental", "electronic", "unique", "unexpected", "innovative", "weird", "unusual"],
                 genres := ["electronic", "experimental", "progressive", "indie", "alternative"],
                 audioFeatures := [("valence", 0.6), ("energy", 0.6), ("instrumentalness", 0.3)] },
      books := ["mystery", "thriller", "science fiction", "plot twist", "suspense"] }),
  ("neutral",
    { movies := ["popular", "top rated", "classic", "award winning", "drama"],
      songs := { queries := ["popular", "top hits", "classic", "mainstream", "trending", "chill", "relaxed"],
                 genres := ["pop", "rock", "indie", "alternative", "folk"],
                 audioFeatures := [("valence", 0.5), ("energy", 0.5), ("popularity", 70)] },
      books := ["bestseller", "classic", "award winning", "popular", "fiction"] }),
  ("disgust",
    { movies := ["wholesome", "family", "animation", "nature", "clean"],
      songs := { queries := ["peaceful", "nature", "instrumental", "clean", "wholesome", "pure", "calm"],
                 genres := ["classical", "ambient", "new-age", "instrumental", "world"],
                 audioFeatures := [("valence", 0.7), ("energy", 0.3), ("acousticness", 0.8)] },
      books := ["wholesome", "nature", "poetry", "philosophy", "clean fiction"] }),
  ("fear",
    { movies := ["inspiring", "courage", "adventure", "feel good", "motivational"],
      songs := { queries := ["motivational", "empowering", "courage", "strength", "uplifting", "brave", "confident"],
                 genres := ["pop", "rock", "inspirational", "gospel", "motivational"],
                 audioFeatures := [("valence", 0.7), ("energy", 0.6), ("speechiness", 0.1)] },
      books := ["courage", "self help", "motivational", "overcoming fear", "empowerment"] })
]

/- ### External content shapes consumed by the recommenders -/

/-- One hit of an OMDB `s=` search response (`interface OMDBMovie`);
`Poster` is `none` when the provider sends the string `"N/A"`. -/
structure OMDBSearchHit where
  Title : String
  Year : String
  imdbID : String
  Poster : Option String
deriving Repr, DecidableEq

/-- An OMDB `i=` detail response. Fields the source compares against
`"N/A"` are `Option`s (`none` models `"N/A"`); `Response` models the
`detailData.Response === "True"` flag; `imdbRating` models
`parseFloat(detailData.imdbRating)` (`none` for `"N/A"`/non-numeric). -/
structure OMDBDetail where
  imdbID : String
  Title : String
  Year : String
  Response : Bool
  Plot : Option String
  Poster : Option String
  imdbRating : Option ℚ
  Genre : Option (List String)
  Director : Option String
  Actors : Option String
deriving Repr, DecidableEq

/-- A Spotify track record (`interface SpotifyTrack`): artists flattened
to their names, album flattened to its name and image URLs. -/
structure SpotifyTrack where
  id : String
  name : String
  artists : List String
  album_name : String
  album_images : List String
  external_urls_spotify : String
  preview_url : Option String
  popularity : ℚ
  duration_ms : Nat
deriving Repr, DecidableEq

/-- A Google Books volume (`interface GoogleBook`), volumeInfo flattened. -/
structure GoogleBook where
  title : Option String
  authors : List String
  publishedDate : Option String
  description : Option String
  thumbnail : Option String
  categories : List String
  pageCount : Option Nat
  averageRating : Option ℚ
deriving Repr, DecidableEq

/- ### The enhanced ContentRecommender (content-recommender library) -/

/-- The `emotionMappings` table of `ContentRecommender`, in source order. -/
def emotionMappings : List (String × (List String × List String × List String)) := [
  ("happy", (["happy", "love", "adventure", "joy", "fun"],
             ["pop", "dance", "funk", "reggae"],
             ["comedy", "romance", "adventure", "self-help"])),
  ("sad", (["sad", "tears", "loss", "grief", "heart"],
           ["acoustic", "indie", "blues", "soul"],
           ["drama", "poetry", "memoir", "philosophy"])),
  ("angry", (["action", "fight", "revenge", "battle", "war"],
             ["rock", "metal", "punk", "electronic"],
             ["thriller", "crime", "politics", "biography"])),
  ("surprised", (["mystery", "twist", "secret", "unexpected", "shock"],
                 ["experimental", "electronic", "world"],
                 ["mystery", "science fiction", "fantasy", "adventure"])),
  ("fear", (["courage", "brave", "overcome", "hope", "escape"],
            ["ambient", "classical", "new-age", "folk"],
            ["comfort", "spirituality", "meditation", "healing"])),
  ("disgust", (["nature", "inspire", "clean", "pure", "truth"],
               ["classical", "jazz", "world", "folk"],
               ["nature", "travel", "art", "culture"])),
  ("neutral", (["classic", "blockbuster", "famous", "top", "movie"],
               ["pop", "rock", "indie", "alternative"],
               ["bestseller", "fiction", "non-fiction", "contemporary"]))
]

/-- The neutral `emotionMappings` entry, the default of
`this.emotionMappings[emotion] || this.emotionMappings.neutral`. -/
def emotionMappings_neutral : List String × List String × List String :=
  (["classic", "blockbuster", "famous", "top", "movie"],
   ["pop", "rock", "indie", "alternative"],
   ["bestseller", "fiction", "non-fiction", "contemporary"])

/-- A movie record produced by `ContentRecommender.getMovieRecommendations`. -/
structure CRMovie where
  id : String
  title : String
  year : String
  rating : ℚ
  overview : String
  poster_url : Option String
  genres : List String
  director : String
  actors : String
  imdb_url : String
deriving Repr, DecidableEq

/-- A song record produced by `ContentRecommender.getMusicRecommendations`. -/
structure CRSong where
  name : String
  artist : String
  album : String
  duration : String
  preview_url : Option String
  image_url : Option String
  external_url : Option String
deriving Repr, DecidableEq

/-- A book record produced by `ContentRecommender.getBookRecommendations`. -/
structure CRBook where
  title : String
  authors : List String
  published_date : String
  description : String
  thumbnail : Option String
  categories : List String
  page_count : Option Nat
  rating : Option ℚ
deriving Repr, DecidableEq

/-- The world of the `ContentRecommender`: configured credentials and the
outcome of every external HTTP call it can make (`none` models a network
error, a timeout or a non-2xx response) plus the Fisher-Yates draws. -/
structure CRWorld where
  omdbApiKey : String
  spotifyClientId : String
  spotifyClientSecret : String
  googleBooksApiKey : String
  spotifyAuthToken : Option String
  omdbSearch : String → Option (List OMDBSearchHit)
  omdbDetail : String → Option OMDBDetail
  spotifyGenreSearch : String → Option (List SpotifyTrack)
  booksSearch : String → Option (List GoogleBook)
  movieRand : Nat → Nat
  musicRand : Nat → Nat
  bookRand : Nat → Nat

/-- `movies.push({...})` record construction inside
`getMovieRecommendations`, from one OMDB detail response. -/
def crMovieOfDetail (d : OMDBDetail) : CRMovie :=
  { id := d.imdbID,
    title := if d.Title = "" then "Unknown Title" else d.Title,
    year := d.Year,
    rating := d.imdbRating.getD 0,
    overview := (d.Plot).getD "No description available.",
    poster_url := d.Poster,
    genres := (d.Genre).getD [],
    director := (d.Director).getD "Unknown",
    actors := (d.Actors).getD "Unknown",
    imdb_url := "https://www.imdb.com/title/" ++ d.imdbID }

/-- `ContentRecommender.getMovieRecommendations`: throws (`Except.error`)
when the OMDB key is missing or the placeholder; otherwise searches up to
3 emotion queries, fetches up to 4 details per search, skips failed
fetches, de-duplicates by id, shuffles and returns the first 10. -/
def CR_getMovieRecommendations (emotion : String) (w : CRWorld) :
    Except String (List CRMovie) :=
  if w.omdbApiKey = "" ∨ w.omdbApiKey = "your_actual_omdb_api_key_here" then
    .error "OMDB API key missing or invalid"
  else
    let mapping := jsLookupD emotionMappings emotion emotionMappings_neutral
    let movies := (mapping.1.take 3).flatMap (fun q =>
      match w.omdbSearch q with
      | none => []
      | some hits => (hits.take 4).filterMap (fun h =>
          match w.omdbDetail h.imdbID with
          | none => none
          | some d => if d.Response then some (crMovieOfDetail d) else none))
    .ok ((shuffleWith w.movieRand (dedupeBy (fun m => m.id) movies [])).take 10)

/-- `ContentRecommender.getSpotifyToken` with the instance token cache
passed explicitly: `null` credentials short-circuit, a cached token is
reused, otherwise the client-credentials call's outcome is returned. -/
def CR_getSpotifyToken (cached : Option String) (w : CRWorld) : Option String :=
  if w.spotifyClientId = "" ∨ w.spotifyClientSecret = "" then none
  else match cached with
    | some t => some t
    | none => w.spotifyAuthToken

/-- `songs.push({...})` record construction inside
`getMusicRecommendations`, from one Spotify track. -/
def crSongOfTrack (t : SpotifyTrack) : CRSong :=
  { name := if t.name = "" then "Unknown Track" else t.name,
    artist := if String.intercalate ", " t.artists = "" then "Unknown Artist"
              else String.intercalate ", " t.artists,
    album := if t.album_name = "" then "Unknown Album" else t.album_name,
    duration := formatDuration t.duration_ms,
    preview_url := t.preview_url,
    image_url := t.album_images.head?,
    external_url := some t.external_urls_spotify }

/-- `ContentRecommender.getMusicRecommendations`: no token means an empty
list; otherwise search the first 2 genres, skip failed calls,
de-duplicate by track name, shuffle and return the first 15. -/
def CR_getMusicRecommendations (emotion : String) (cached : Option String)
    (w : CRWorld) : List CRSong :=
  match CR_getSpotifyToken cached w with
  | none => []
  | some _ =>
    let mapping := jsLookupD emotionMappings emotion emotionMappings_neutral
    let songs := (mapping.2.1.take 2).flatMap (fun g =>
      match w.spotifyGenreSearch g with
      | none => []
      | some tracks => tracks.map crSongOfTrack)
    (shuffleWith w.musicRand (dedupeBy (fun s => s.name) songs [])).take 15

/-- `books.push({...})` record construction inside
`getBookRecommendations`, from one Google Books volume whose title is
present; descriptions over 500 characters are truncated with `"..."`. -/
def crBookOfVolume (title : String) (b : GoogleBook) : CRBook :=
  { title := title,
    authors := if b.authors = [] then ["Unknown Author"] else b.authors,
    published_date := (b.publishedDate).getD "Unknown",
    description :=
      let d := (b.description).getD ""
      if 500 < d.length then d.take 500 ++ "..." else d,
    thumbnail := b.thumbnail,
    categories := b.categories,
    page_count := b.pageCount,
    rating := b.averageRating }

/-- `ContentRecommender.getBookRecommendations`: search the first 2 book
queries, skip failed calls and untitled volumes, de-duplicate by title,
shuffle and return the first 10. -/
def CR_getBookRecommendations (emotion : String) (w : CRWorld) : List CRBook :=
  let mapping := jsLookupD emotionMappings emotion emotionMappings_neutral
  let books := (mapping.2.2.take 2).flatMap (fun q =>
    match w.booksSearch q with
    | none => []
    | some items => items.filterMap (fun b =>
        match b.title with
        | none => none
        | some t => some (crBookOfVolume t b)))
  (shuffleWith w.bookRand (dedupeBy (fun b => b.title) books [])).take 10

/-- The result shape of `ContentRecommender.getRecommendations`. -/
structure CRRecs where
  movies : List CRMovie
  music : List CRSong
  books : List CRBook
deriving Repr

/-- `ContentRecommender.getRecommendations`: `Promise.allSettled` of the
three fetches, a rejected movie fetch degrading to `[]`. -/
def CR_getRecommendations (emotion : String) (cached : Option String)
    (w : CRWorld) : CRRecs :=
  { movies := match CR_getMovieRecommendations emotion w with
              | .ok l => l
              | .error _ => [],
    music := CR_getMusicRecommendations emotion cached w,
    books := CR_getBookRecommendations emotion w }

/- ### The SpotifyClient library (spotify-client.ts) -/

/-- The mutable fields of the `SpotifyClient` singleton. -/
structure SpotifyClientState where
  accessToken : Option String
  isAvailable : Bool
  lastCheck : Int
deriving Repr, DecidableEq

/-- The initial `SpotifyClient` field values. -/
def initialSpotifyClientState : SpotifyClientState :=
  { accessToken := none, isAvailable := true, lastCheck := 0 }

/-- The outcome of the client's `fetch("/api/spotify-auth")` call:
`fallback` models a body with `fallback: true`, `authOk t` a 2xx body
carrying `access_token = t`, `authFail` a non-2xx/missing-token body and
`authNetFail` a thrown network error or timeout. -/
inductive SpotifyAuthOutcome where
  | fallback
  | authOk (token : String)
  | authFail
  | authNetFail
deriving Repr, DecidableEq

/-- The outcome of one external HTTP call:
a 2xx body, a non-2xx status, or a thrown network error. -/
inductive HttpOutcome (α : Type) where
  | ok (v : α)
  | httpStatus (s : Nat)
  | netFail
deriving Repr, DecidableEq

/-- The world of the `SpotifyClient`: the auth endpoint's answer and the
Web API's answer to searches and recommendation calls. The answers are
constant per world; a scenario such as "every call returns 401" is one
world. -/
structure SCWorld where
  auth : SpotifyAuthOutcome
  search : String → HttpOutcome (List SpotifyTrack)
  recs : List String → HttpOutcome (List SpotifyTrack)

/-- `SpotifyClient.getAccessToken`: returns `some token` with the updated
client state on success, `none` (a thrown error) otherwise. -/
def SC_getAccessToken (st : SpotifyClientState) (now : Int) (w : SCWorld) :
    Option String × SpotifyClientState :=
  match st.accessToken with
  | some t =>
    if st.isAvailable then (some t, st)
    else authAttempt
  | none => authAttempt
where
  /-- The body after the cached-token fast path: the 1-minute cooldown
  check, then the `/api/spotify-auth` call. -/
  authAttempt : Option String × SpotifyClientState :=
    if ¬ st.isAvailable ∧ now - st.lastCheck < 60000 then
      (none, st)
    else
      match w.auth with
      | .fallback => (none, { st with isAvailable := false, lastCheck := now })
      | .authFail => (none, { st with isAvailable := false, lastCheck := now })
      | .authNetFail => (none, { st with isAvailable := false, lastCheck := now })
      | .authOk t =>
          (some t, { accessToken := some t, isAvailable := true, lastCheck := now })

/-- `SpotifyClient.searchTracks` with an explicit recursion budget: the
source's 401 branch clears the token and calls itself with no retry
bound, so the recursion is modelled on fuel; `none` means the budget was
exhausted (in JavaScript: the recursion never returns and overflows the
stack). -/
def SC_searchTracks (w : SCWorld) (query : String) (now : Int) :
    Nat → SpotifyClientState → Option (List SpotifyTrack × SpotifyClientState)
  | 0, _ => none
  | _fuel + 1, st =>
    match SC_getAccessToken st now w with
    | (none, st') => some ([], st')
    | (some _, st') =>
      match w.search query with
      | .ok items => some (items, st')
      | .httpStatus 401 =>
          SC_searchTracks w query now _fuel { st' with accessToken := none }
      | .httpStatus _ => some ([], st')
      | .netFail => some ([], st')

/-- `SpotifyClient.getRecommendations` with an explicit recursion budget;
identical 401-handling shape to `SC_searchTracks`. -/
def SC_getRecommendations (w : SCWorld) (seedGenres : List String) (now : Int) :
    Nat → SpotifyClientState → Option (List SpotifyTrack × SpotifyClientState)
  | 0, _ => none
  | _fuel + 1, st =>
    match SC_getAccessToken st now w with
    | (none, st') => some ([], st')
    | (some _, st') =>
      match w.recs (seedGenres.take 5) with
      | .ok items => some (items, st')
      | .httpStatus 401 =>
          SC_getRecommendations w seedGenres now _fuel { st' with accessToken := none }
      | .httpStatus _ => some ([], st')
      | .netFail => some ([], st')

/-- `SpotifyClient.formatTrackForRecommendation`. -/
def formatTrackForRecommendation (t : SpotifyTrack) : Recommendation :=
  { id := t.id,
    title := t.name ++ " - " ++ String.intercalate ", " t.artists,
    description := t.album_name ++ " • " ++ formatDuration t.duration_ms,
    image := (t.album_images.head?).getD "/placeholder.svg?height=200&width=200&text=Song",
    link := t.external_urls_spotify,
    rating := t.popularity / 20,
    preview_url := t.preview_url }

/- ### The Spotify token-refresh endpoint (spotify-auth route) -/

/-- The module-level token cache of the spotify-auth route. -/
structure CachedToken where
  access_token : String
  expires_at : Int
deriving Repr, DecidableEq

/-- The provider's answer to the client-credentials grant:
`some (token, expiresIn)` on 2xx, `none` on any failure. -/
def SpotifyGrantOutcome := Option (String × Int)

/-- The JSON the spotify-auth route returns. -/
structure TokenResponse where
  status : Nat
  access_token : Option String
  cached : Option Bool
  expires_in : Option Int
  error : Option String
  fallback : Option Bool
deriving Repr, DecidableEq

/-- One invocation of the spotify-auth route's `POST`: takes the cache
and the clock, returns the response, the new cache, and how many external
authentication calls were issued (0 or 1). -/
def spotifyAuthPOST (cache : Option CachedToken) (now : Int)
    (clientId clientSecret : String) (grant : SpotifyGrantOutcome) :
    TokenResponse × Option CachedToken × Nat :=
  match cache with
  | some t =>
    if now < t.expires_at then
      ({ status := 200, access_token := some t.access_token, cached := some true,
         expires_in := none, error := none, fallback := none }, cache, 0)
    else freshGrant cache now clientId clientSecret grant
  | none => freshGrant cache now clientId clientSecret grant
where
  /-- The body after the cache fast path: the credentials check and the
  client-credentials call, caching the token 5 minutes (300s) early. -/
  freshGrant (cache : Option CachedToken) (now : Int)
      (clientId clientSecret : String) (grant : SpotifyGrantOutcome) :
      TokenResponse × Option CachedToken × Nat :=
    if clientId = "" ∨ clientSecret = "" then
      ({ status := 400, access_token := none, cached := none, expires_in := none,
         error := some "Spotify credentials not configured", fallback := some true },
       cache, 0)
    else
      match grant with
      | none =>
        ({ status := 500, access_token := none, cached := none, expires_in := none,
           error := some "Failed to authenticate with Spotify", fallback := some true },
         cache, 1)
      | some (tok, expiresIn) =>
        ({ status := 200, access_token := some tok, cached := some false,
           expires_in := some expiresIn, error := none, fallback := none },
         some { access_token := tok, expires_at := now + (expiresIn - 300) * 1000 }, 1)

/- ### The recommendations endpoint (recommendations route) -/

/-- The full world of one recommendations-route request: the enhanced
recommender's world and cached token, the legacy fetchers' oracles, the
`SpotifyClient` singleton's state, world and recursion budget, the clock,
and the `Math.random()` draws used while transforming results.
`enhancedThrows` models an unexpected runtime error inside the enhanced
`try` block (its `catch` falls back to the original logic). -/
structure RecWorld where
  cr : CRWorld
  crCachedToken : Option String
  enhancedThrows : Bool
  legacyRand : Nat → Nat
  legacyOmdbSearch : String → HttpOutcome (List OMDBSearchHit)
  legacyOmdbDetail : String → Option OMDBDetail
  sc : SCWorld
  scState : SpotifyClientState
  scFuel : Nat
  now : Int
  songIdRand : Nat → String
  songRatingRand : Nat → ℚ
  bookIdRand : Nat → String
  bookRatingRand : Nat → ℚ

/-- The JSON the recommendations route returns. Error-shaped bodies fill
the list fields with `[]` and the flags with `false`. -/
structure RecResponse where
  status : Nat
  movies : List Recommendation
  songs : List Recommendation
  books : List Recommendation
  spotify_available : Bool
  omdb_configured : Bool
  enhanced_backend : Bool
  error : Option String
deriving Repr

/-- The basic-info record built in `fetchMovies` when the per-title
detail fetch fails or its `Response` is not `"True"`. -/
def basicRecOfHit (m : OMDBSearchHit) : Recommendation :=
  { id := m.imdbID,
    title := m.Title,
    description := "No description available",
    image := (m.Poster).getD "/placeholder.svg?height=200&width=150&text=Movie",
    link := "https://www.imdb.com/title/" ++ m.imdbID,
    rating := 0 }

/-- `fetchMovies` of the recommendations route: placeholder or missing
OMDB keys, failed or empty searches, and thrown errors (including the
property access on an unknown emotion) all degrade to
`getFallbackMovies`; otherwise the first 3 hits are returned, each
enriched by a detail fetch when that fetch succeeds. -/
def fetchMovies (emotion : String) (w : RecWorld) : List Recommendation :=
  match emotionConfig.lookup emotion with
  | none => getFallbackMovies emotion
  | some cfg =>
    let queries := cfg.movies
    let randomQuery := queries.getD (w.legacyRand 0 % queries.length) ""
    let apiKey := w.cr.omdbApiKey
    if apiKey = "" ∨ apiKey = "demo" ∨ apiKey = "your_omdb_api_key" ∨
        apiKey = "your_actual_omdb_api_key_here" then
      getFallbackMovies emotion
    else
      match w.legacyOmdbSearch randomQuery with
      | .netFail => getFallbackMovies emotion
      | .httpStatus _ => getFallbackMovies emotion
      | .ok hits =>
        if hits.isEmpty then getFallbackMovies emotion
        else (hits.take 3).map (fun m =>
          match w.legacyOmdbDetail m.imdbID with
          | some d =>
            if d.Response then
              { id := d.imdbID,
                title := d.Title,
                description := match d.Plot with
                  | some p => p.take 100 ++ "..."
                  | none => "No description available",
                image := (d.Poster).getD "/placeholder.svg?height=200&width=150&text=Movie",
                link := "https://www.imdb.com/title/" ++ d.imdbID,
                rating := d.imdbRating.getD 0 }
            else basicRecOfHit m
          | none => basicRecOfHit m)

/-- The first phase of `fetchSpotifySongs`: the client recommendations
call, formatting up to 3 tracks; a `none` (exhausted recursion budget, a
stack overflow in JavaScript) is caught by the inner `catch`, the
pre-call state approximating the state after the overflow. -/
def songsStep1 (cfg : EmotionConfigEntry) (w : RecWorld) :
    List Recommendation × SpotifyClientState :=
  match SC_getRecommendations w.sc cfg.songs.genres w.now w.scFuel w.scState with
  | none => ([], w.scState)
  | some (tracks, st1) =>
    (if tracks.isEmpty then []
     else (tracks.take 3).map formatTrackForRecommendation, st1)

/-- The second phase of `fetchSpotifySongs`: when fewer than 3 songs were
gathered, a keyword search on a randomly picked query backfills up to
the cap. -/
def songsStep2 (cfg : EmotionConfigEntry) (w : RecWorld) :
    List Recommendation × SpotifyClientState :=
  let step1 := songsStep1 cfg w
  if step1.1.length < 3 then
    match SC_searchTracks w.sc
        (cfg.songs.queries.getD (w.legacyRand 1 % cfg.songs.queries.length) "")
        w.now w.scFuel step1.2 with
    | none => step1
    | some (tracks, st2) =>
      (step1.1 ++
        (if tracks.isEmpty then []
         else (tracks.take (3 - step1.1.length)).map formatTrackForRecommendation),
       st2)
  else step1

/-- `fetchSpotifySongs` of the recommendations route, threading the
`SpotifyClient` singleton state: an unavailable client, empty results and
thrown errors degrade to `getFallbackSongs`. -/
def fetchSpotifySongs (emotion : String) (w : RecWorld) :
    List Recommendation × SpotifyClientState :=
  match emotionConfig.lookup emotion with
  | none => (getFallbackSongs emotion, w.scState)
  | some cfg =>
    if ¬ w.scState.isAvailable then (getFallbackSongs emotion, w.scState)
    else if (songsStep2 cfg w).1.isEmpty then
      (getFallbackSongs emotion, (songsStep2 cfg w).2)
    else songsStep2 cfg w

/-- `fetchBooks` of the recommendations route: always the curated
Goodreads-style list; the `catch` (an unknown emotion's property access)
returns `getFallbackBooks`. -/
def fetchBooks (emotion : String) : List Recommendation :=
  match emotionConfig.lookup emotion with
  | none => getFallbackBooks emotion
  | some _ => getGoodreadsStyleBooks emotion

/-- The movie transform of the route's enhanced branch. The source's
`movie.overview?.substring(0, 100) + "..." || default` always takes the
concatenation (it is never the empty string). -/
def transformMovie (m : CRMovie) : Recommendation :=
  { id := m.id,
    title := m.title,
    description := m.overview.take 100 ++ "...",
    image := (m.poster_url).getD "/placeholder.svg?height=200&width=150&text=Movie",
    link := m.imdb_url,
    rating := m.rating }

/-- The song transform of the route's enhanced branch; `idx` indexes the
`Math.random()` draws for the generated id and rating. -/
def transformSong (w : RecWorld) (idx : Nat) (s : CRSong) : Recommendation :=
  { id := w.songIdRand idx,
    title := s.name ++ " - " ++ s.artist,
    description := s.album ++ " • " ++ s.duration,
    image := (s.image_url).getD "/placeholder.svg?height=200&width=200&text=Song",
    link := (s.external_url).getD
      ("https://open.spotify.com/search/" ++ encodeURIComponent (s.name ++ " " ++ s.artist)),
    rating := w.songRatingRand idx,
    preview_url := s.preview_url }

/-- The book transform of the route's enhanced branch; a missing or zero
(falsy) book rating takes the `Math.random() * 5` draw. -/
def transformBook (w : RecWorld) (idx : Nat) (b : CRBook) : Recommendation :=
  { id := w.bookIdRand idx,
    title := b.title,
    description := b.description.take 100 ++ "...",
    image := (b.thumbnail).getD "/placeholder.svg?height=250&width=180&text=Book",
    link := "https://www.google.com/search?q=" ++ encodeURIComponent (b.title ++ " book"),
    rating := match b.rating with
      | some r => if r = 0 then w.bookRatingRand idx else r
      | none => w.bookRatingRand idx }

/-- The enhanced branch of the route's `POST`: consult the
`ContentRecommender`, transform its three lists, replace every content
kind that came back empty by its static fallback list, and answer when
anything is non-empty (`none` falls through to the original logic, as
the source's `if` falls through when all three lists are empty). -/
def enhancedBranch (emotion : String) (w : RecWorld) : Option RecResponse :=
  let recs := CR_getRecommendations emotion w.crCachedToken w.cr
  let tM := recs.movies.map transformMovie
  let tS := recs.music.enum.map (fun p => transformSong w p.1 p.2)
  let tB := recs.books.enum.map (fun p => transformBook w p.1 p.2)
  let mR := if tM.isEmpty then getFallbackMovies emotion else tM
  let sR := if tS.isEmpty then getFallbackSongs emotion else tS
  let bR := if tB.isEmpty then getGoodreadsStyleBooks emotion else tB
  if ¬ mR.isEmpty ∨ ¬ sR.isEmpty ∨ ¬ bR.isEmpty then
    some { status := 200, movies := mR, songs := sR, books := bR,
           spotify_available := w.scState.isAvailable,
           omdb_configured := w.cr.omdbApiKey != "",
           enhanced_backend := true, error := none }
  else none

/-- The original (pre-enhanced) logic of the route's `POST`: the
`Promise.allSettled` fan-out of the three legacy fetchers (none of which
ever rejects, each catching internally). -/
def originalLogic (emotion : String) (w : RecWorld) : RecResponse :=
  let movies := fetchMovies emotion w
  let songsSt := fetchSpotifySongs emotion w
  let books := fetchBooks emotion
  { status := 200, movies := movies, songs := songsSt.1, books := books,
    spotify_available := songsSt.2.isAvailable,
    omdb_configured := w.cr.omdbApiKey != "",
    enhanced_backend := false, error := none }

/-- The recommendations route's `POST`. `body = none` models an
unparseable request (`request.json()` throws), handled by the outer
catch with the neutral fallback lists; an unknown emotion is rejected
with 400; otherwise the enhanced recommender is consulted, every content
kind that came back empty is replaced by its static fallback list, and
the original logic is the safety net. -/
def recommendPOST (body : Option String) (w : RecWorld) : RecResponse :=
  match body with
  | none =>
    { status := 200,
      movies := getFallbackMovies "neutral",
      songs := getFallbackSongs "neutral",
      books := getFallbackBooks "neutral",
      spotify_available := false, omdb_configured := false,
      enhanced_backend := false,
      error := some "Using fallback recommendations" }
  | some emotion =>
    if (emotionConfig.lookup emotion).isNone then
      { status := 400, movies := [], songs := [], books := [],
        spotify_available := false, omdb_configured := false,
        enhanced_backend := false,
        error := some "Invalid emotion provided" }
    else if w.enhancedThrows then originalLogic emotion w
    else
      match enhancedBranch emotion w with
      | some r => r
      | none => originalLogic emotion w

/- ### The emotion-detection endpoint and its provider chain -/

/-- The JSON shape `EmotionDetectionResponse` of the detection route;
fields absent from a partial body such as `{ success: false }` take the
listed defaults. -/
structure EmotionResponse where
  success : Bool
  emotion : String := ""
  confidence : ℚ := 0
  all_emotions : List (String × ℚ) := []
  face_detected : Bool := false
  error : Option String := none
  service_used : Option String := none
  face_quality : Option ℚ := none
deriving Repr, DecidableEq

/-- The fixed low-confidence default distribution used by every
"no face found" (and all-services-failed) branch. -/
def defaultNeutralDistribution : List (String × ℚ) :=
  [("happy", 0.1), ("sad", 0.1), ("angry", 0.1), ("surprised", 0.1),
   ("neutral", 0.5), ("disgust", 0.05), ("fear", 0.05)]

/-- `imageData.split(",")[1]`: the piece between the first and second
comma, written on the character list so that it reduces in the kernel. -/
def dataUrlSecondPiece (s : String) : String :=
  String.mk (((s.data.dropWhile (fun c => c != ',')).drop 1).takeWhile (fun c => c != ','))

/-- `processImageForFacePlusPlus`: strip a data-URL prefix
(`imageData.includes(",") ? imageData.split(",")[1] : imageData`),
reject an empty payload, reject a decoded size over 2MB (the decoded
byte count of base64 is `length * 3 / 4`; Node's lenient decoder never
throws, and the minimum-size branch of the source is an explicit
no-op). -/
def processImageForFacePlusPlus (imageData : String) : Except String String :=
  let base64Data :=
    if imageData.data.contains ',' then dataUrlSecondPiece imageData else imageData
  if base64Data = "" then .error "Empty image data"
  else if 2 * 1024 * 1024 < base64Data.data.length * 3 / 4 then
    .error "Image too large (maximum 2MB)"
  else .ok base64Data

/-- The per-label emotion scores of one Face++ face, percentages in the
provider's fixed response-key order. -/
structure FPPEmotions where
  happiness : ℚ
  sadness : ℚ
  anger : ℚ
  surprise : ℚ
  neutral : ℚ
  disgust : ℚ
  fear : ℚ
deriving Repr, DecidableEq

/-- One Face++ face: its emotion scores and the optional
`attributes.facequality.threshold`. -/
structure FPPFace where
  emotions : FPPEmotions
  facequality_threshold : Option ℚ
deriving Repr, DecidableEq

/-- The `allEmotions` object built from a Face++ face: the canonical
seven keys in their initialization order, each taken from the provider's
matching score normalized by 100 (the `emotionMapping` renaming makes
the iteration hit exactly the seven initialized keys). -/
def fppEntries (e : FPPEmotions) : List (String × ℚ) :=
  [("happy", e.happiness / 100), ("sad", e.sadness / 100),
   ("angry", e.anger / 100), ("surprised", e.surprise / 100),
   ("neutral", e.neutral / 100), ("disgust", e.disgust / 100),
   ("fear", e.fear / 100)]

/-- The outcome of the Face++ HTTP call: a parsed face list, a non-2xx
response (carrying the error message after the source's message
mapping), or a thrown fetch error / timeout (likewise post-mapping). -/
inductive FPOutcome where
  | ok (faces : List FPPFace)
  | httpError (errorMessage : String)
  | netFail (errorMessage : String)
deriving Repr, DecidableEq

/-- The per-label emotion scores of one Azure face, in the provider's
response-key order; only `happiness` and `sadness` are renamed by the
source's mapper, the rest keep their Azure names. -/
structure AzureEmotions where
  anger : ℚ
  contempt : ℚ
  disgust : ℚ
  fear : ℚ
  happiness : ℚ
  neutral : ℚ
  sadness : ℚ
  surprise : ℚ
deriving Repr, DecidableEq

/-- The `allEmotions` object built from an Azure face, in iteration
order with the source's partial renaming. -/
def azureEntries (e : AzureEmotions) : List (String × ℚ) :=
  [("anger", e.anger), ("contempt", e.contempt), ("disgust", e.disgust),
   ("fear", e.fear), ("happy", e.happiness), ("neutral", e.neutral),
   ("sad", e.sadness), ("surprise", e.surprise)]

/-- A Google Vision likelihood; `UNKNOWN` stands for any value outside
the source's `likelihoodToConfidence` table. -/
inductive GVLikelihood where
  | VERY_UNLIKELY
  | UNLIKELY
  | POSSIBLE
  | LIKELY
  | VERY_LIKELY
  | UNKNOWN
deriving Repr, DecidableEq

/-- The `likelihoodToConfidence` table with its `|| 0.1` default. -/
def likelihoodToConfidence : GVLikelihood → ℚ
  | .VERY_UNLIKELY => 0.1
  | .UNLIKELY => 0.2
  | .POSSIBLE => 0.4
  | .LIKELY => 0.7
  | .VERY_LIKELY => 0.9
  | .UNKNOWN => 0.1

/-- One Google Vision face annotation. -/
structure GVFace where
  joyLikelihood : GVLikelihood
  sorrowLikelihood : GVLikelihood
  angerLikelihood : GVLikelihood
  surpriseLikelihood : GVLikelihood
deriving Repr, DecidableEq

/-- The randomness and clock context of `generateRealisticEmotion`:
`rSelect` drives the weighted emotion pick, `rConf` the confidence draw,
`rSecondary i` the i-th secondary-emotion draw. -/
structure SimWorld where
  hours : Nat
  dayOfWeek : Nat
  rSelect : ℚ
  rConf : ℚ
  rSecondary : Nat → ℚ

/-- The world of one detection request: configured credentials (`none`
also models an empty value), the DeepFace sidecar's liveness and answer,
each cloud provider's response, and the simulator's randomness.
For Azure, `none` models any failed call; for Google Vision the outer
`Option` is the call outcome and the inner one the presence of a face
annotation. -/
structure DetectWorld where
  facePlusKey : Option String
  facePlusSecret : Option String
  azureKey : Option String
  azureEndpoint : Option String
  googleKey : Option String
  deepfaceHealthy : Bool
  deepfaceResult : Option EmotionResponse
  fpHttp : FPOutcome
  azHttp : Option (List AzureEmotions)
  gvHttp : Option (Option GVFace)
  sim : SimWorld

/-- The "no face found" success result of `detectWithFacePlusPlus`. -/
def noFaceFacePlusResult : EmotionResponse :=
  { success := true, emotion := "neutral", confidence := 0.3,
    all_emotions := defaultNeutralDistribution, face_detected := false,
    service_used := some "faceplus" }

/-- `detectWithFacePlusPlus`: missing credentials give a bare failure,
an invalid image a validation error, HTTP and network failures carry
their mapped message, an empty face list the fixed neutral default, and
a face the renamed, `/100`-normalized distribution with the running-max
dominant pick. -/
def detectWithFacePlusPlus (imageData : String) (w : DetectWorld) : EmotionResponse :=
  match w.facePlusKey, w.facePlusSecret with
  | some _, some _ =>
    match processImageForFacePlusPlus imageData with
    | .error e => { success := false, error := some ("Image validation failed: " ++ e) }
    | .ok _ =>
      match w.fpHttp with
      | .httpError m => { success := false, error := some m }
      | .netFail m => { success := false, error := some m }
      | .ok faces =>
        match faces with
        | [] => noFaceFacePlusResult
        | face :: _ =>
          let entries := fppEntries face.emotions
          let dm := argmaxFold entries "neutral" 0
          { success := true, emotion := dm.1, confidence := dm.2,
            all_emotions := entries, face_detected := true,
            service_used := some "faceplus",
            face_quality := some ((face.facequality_threshold.getD 70) / 100) }
  | _, _ => { success := false }

/-- `detectWithAzureFace`: missing credentials or any failed call give a
bare failure; no face gives a 0.4-confidence neutral default; a face
gives the partially renamed distribution with the running-max pick. -/
def detectWithAzureFace (w : DetectWorld) : EmotionResponse :=
  match w.azureKey, w.azureEndpoint with
  | some _, some _ =>
    match w.azHttp with
    | none => { success := false }
    | some faces =>
      match faces with
      | [] =>
        { success := true, emotion := "neutral", confidence := 0.4,
          all_emotions := defaultNeutralDistribution, face_detected := false }
      | f :: _ =>
        let entries := azureEntries f
        let dm := argmaxFold entries "neutral" 0
        { success := true, emotion := dm.1, confidence := dm.2,
          all_emotions := entries, face_detected := true }
  | _, _ => { success := false }

/-- `detectWithGoogleVision`: the four likelihood-mapped labels are
written over the fixed base distribution, and the running-max pick
starts from `("neutral", 0.5)`. -/
def detectWithGoogleVision (w : DetectWorld) : EmotionResponse :=
  match w.googleKey with
  | none => { success := false }
  | some _ =>
    match w.gvHttp with
    | none => { success := false }
    | some none =>
      { success := true, emotion := "neutral", confidence := 0.4,
        all_emotions := defaultNeutralDistribution, face_detected := false }
    | some (some f) =>
      let cj := likelihoodToConfidence f.joyLikelihood
      let cs := likelihoodToConfidence f.sorrowLikelihood
      let ca := likelihoodToConfidence f.angerLikelihood
      let csu := likelihoodToConfidence f.surpriseLikelihood
      let updates := [("happy", cj), ("sad", cs), ("angry", ca), ("surprised", csu)]
      let dm := argmaxFold updates "neutral" 0.5
      { success := true, emotion := dm.1, confidence := dm.2,
        all_emotions := [("happy", cj), ("sad", cs), ("angry", ca), ("surprised", csu),
                         ("neutral", 0.5), ("disgust", 0.05), ("fear", 0.05)],
        face_detected := true }

/-- `detectEmotionWithAI`: Face++, then Azure, then Google Vision, each
re-tagged with its provenance on success; otherwise the all-failed
result tagged `service_used = "none"`. -/
def detectEmotionWithAI (imageData : String) (w : DetectWorld) : EmotionResponse :=
  let fp := detectWithFacePlusPlus imageData w
  if fp.success then { fp with service_used := some "faceplus" }
  else
    let az := detectWithAzureFace w
    if az.success then { az with service_used := some "azure" }
    else
      let gv := detectWithGoogleVision w
      if gv.success then { gv with service_used := some "google" }
      else
        { success := false, emotion := "neutral", confidence := 0.3,
          all_emotions := defaultNeutralDistribution, face_detected := false,
          error := some ((fp.error).getD "All AI face detection services unavailable"),
          service_used := some "none" }

/-- The image-statistics perturbation of `generateRealisticEmotion`:
`0.5`, raised by `0.2` when over 60% of the first 1000 base64 characters
have a char code above `'m'` (109), lowered by `0.1` when under 40%.
(The companion `complexityIndicator` only bumps a `confidence` variable
that is unconditionally overwritten later, so it has no effect.) -/
def simImageVariance (imageData : Option String) : ℚ :=
  match imageData with
  | none => 0.5
  | some img =>
    let base64Part :=
      if img.data.contains ',' then
        (if dataUrlSecondPiece img = "" then img else dataUrlSecondPiece img)
      else img
    if 1000 < base64Part.data.length then
      let sample := base64Part.data.take 1000
      let brightness := ((sample.filter (fun c => 109 < c.toNat)).length : ℚ) / (sample.length : ℚ)
      if 0.6 < brightness then 0.5 + 0.2
      else if brightness < 0.4 then 0.5 - 0.1
      else 0.5
    else 0.5

/-- The simulator's emotion-probability object after the time-of-day,
weekend and image-variance adjustments, normalized to sum to 1, in the
literal's insertion order. -/
def simProbabilities (hours dayOfWeek : Nat) (iv : ℚ) : List (String × ℚ) :=
  let ph := (0.25 : ℚ)
  let pn := (0.20 : ℚ)
  let psu := (0.15 : ℚ)
  let psa := (0.12 : ℚ)
  let pa := (0.10 : ℚ)
  let pf := (0.10 : ℚ)
  let pd := (0.08 : ℚ)
  let morning := 6 ≤ hours ∧ hours ≤ 10
  let evening := 18 ≤ hours ∧ hours ≤ 22
  let late := 22 ≤ hours ∨ hours ≤ 5
  let ph := if morning then ph - 0.05 else if evening then ph + 0.1
            else if late then ph - 0.1 else ph
  let pn := if morning then pn + 0.1 else if evening then pn + 0.05
            else if late then pn + 0.15 else pn
  let psu := if morning then psu + 0.05 else psu
  let psa := if morning ∨ evening then psa else if late then psa + 0.05 else psa
  let pa := if morning then pa else if evening then pa - 0.05 else pa
  let weekend := dayOfWeek = 0 ∨ dayOfWeek = 6
  let ph := if weekend then ph + 0.08 else ph
  let pa := if weekend then pa - 0.03 else pa
  let psa := if weekend then psa - 0.02 else psa
  let ph := ph * (1 + iv * 0.3)
  let psu := psu * (1 + iv * 0.3)
  let psa := psa * (1 - iv * 0.2)
  let pa := pa * (1 - iv * 0.2)
  let total := ph + pn + psu + psa + pa + pf + pd
  [("happy", ph / total), ("neutral", pn / total), ("surprised", psu / total),
   ("sad", psa / total), ("angry", pa / total), ("fear", pf / total),
   ("disgust", pd / total)]

/-- The weighted random pick
`randomValue -= probability; if (randomValue <= 0) break` of the
simulator. -/
def selectWalk (r : ℚ) : List (String × ℚ) → Option String
  | [] => none
  | (e, p) :: rest => if r - p ≤ 0 then some e else selectWalk (r - p) rest

/-- The simulator's `baseConfidence` range table. -/
def baseConfidence : List (String × (ℚ × ℚ)) :=
  [("happy", (0.7, 0.95)), ("sad", (0.65, 0.88)), ("angry", (0.72, 0.92)),
   ("surprised", (0.68, 0.91)), ("neutral", (0.60, 0.85)),
   ("fear", (0.63, 0.87)), ("disgust", (0.66, 0.89))]

/-- The co-occurrence boost applied to `maxAllowed` for some
primary/secondary emotion pairs. -/
def simBoost (primary e : String) : ℚ :=
  if primary = "happy" ∧ e = "surprised" then 1.5
  else if primary = "sad" ∧ e = "fear" then 1.3
  else if primary = "angry" ∧ e = "disgust" then 1.4
  else 1

/-- The secondary-emotion distribution loop of the simulator: every
non-final emotion receives `min(score, remaining - 0.01)` where `score`
is drawn in `[0.01, maxAllowed]`, and the final one receives
`max(0.01, remaining)`. -/
def simDistribute (primary : String) (rands : Nat → ℚ) :
    List String → Nat → ℚ → List (String × ℚ)
  | [], _, _ => []
  | [last], _, remaining => [(last, max 0.01 remaining)]
  | e :: e2 :: rest, idx, remaining =>
      let maxAllowed := remaining * 0.6 * simBoost primary e
      let score := rands idx * (maxAllowed - 0.01) + 0.01
      let assigned := min score (remaining - 0.01)
      (e, assigned) :: simDistribute primary rands (e2 :: rest) (idx + 1) (remaining - assigned)

/-- `generateRealisticEmotion`: weighted pick of a dominant emotion,
range-drawn confidence, secondary distribution of the remaining mass,
and a final renormalization of the whole object; the reported
`confidence` re-reads the dominant label's normalized value. -/
def generateRealisticEmotion (imageData : Option String) (w : SimWorld) : EmotionResponse :=
  let iv := simImageVariance imageData
  let probs := simProbabilities w.hours w.dayOfWeek iv
  let primaryEmotion := (selectWalk w.rSelect probs).getD "neutral"
  let range := jsLookupD baseConfidence primaryEmotion (0.60, 0.85)
  let confidence := w.rConf * (range.2 - range.1) + range.1
  let otherEmotions := (probs.map Prod.fst).filter (fun e => e ≠ primaryEmotion)
  let others := simDistribute primaryEmotion w.rSecondary otherEmotions 0 (1 - confidence)
  let allPre := others ++ [(primaryEmotion, confidence)]
  let total := sumDist allPre
  let allEmotions := allPre.map (fun p => (p.1, p.2 / total))
  { success := true,
    emotion := primaryEmotion,
    confidence := jsLookupD allEmotions primaryEmotion 0,
    all_emotions := allEmotions,
    face_detected := true,
    service_used := some "enhanced_simulation" }

/-- The body of one detection request:
`{ image, forceRealDetection }`. -/
structure DetectRequest where
  image : String
  forceRealDetection : Bool
deriving Repr, DecidableEq

/-- An HTTP response of the detection route: the status, the result
body, the route-level `service_mode` tag, and the optional note attached
to simulated answers. -/
structure DetectResponse where
  status : Nat
  body : EmotionResponse
  service_mode : Option String
  note : Option String := none
deriving Repr, DecidableEq

/-- Whether the Face++ credentials are configured and not the
placeholder values (`hasFacePlusCredentials` in the route). -/
def hasFacePlusCredentials (w : DetectWorld) : Bool :=
  match w.facePlusKey, w.facePlusSecret with
  | some k, some s =>
      (k != "your_faceplus_api_key_here") && (s != "your_faceplus_api_secret_here")
  | _, _ => false

/-- The detection route's `POST`: parse failure gives the outer-catch
500; an empty image 400; `forceRealDetection` without Face++ credentials
400; then DeepFace, direct Face++ (whose failure under
`forceRealDetection` is surfaced as 400), the cloud chain, and — only
without `forceRealDetection` — the simulator. -/
def detectPOST (req : Option DetectRequest) (w : DetectWorld) : DetectResponse :=
  match req with
  | none =>
    { status := 500,
      body := { success := false, error := some "Unknown error in emotion detection" },
      service_mode := some "error" }
  | some r =>
    if r.image = "" then
      { status := 400,
        body := { success := false, error := some "No image data provided" },
        service_mode := none }
    else if r.forceRealDetection && !hasFacePlusCredentials w then
      { status := 400,
        body := { success := false,
                  error := some "Real emotion detection requested but Face++ API credentials not configured. Please set FACEPLUS_API_KEY and FACEPLUS_API_SECRET environment variables." },
        service_mode := some "error" }
    else
      match (if w.deepfaceHealthy then w.deepfaceResult else none) with
      | some result => { status := 200, body := result, service_mode := some "deepface_ai" }
      | none =>
        let fp := detectWithFacePlusPlus r.image w
        if hasFacePlusCredentials w && fp.success then
          { status := 200, body := fp, service_mode := some "faceplus_direct" }
        else if hasFacePlusCredentials w && !fp.success && r.forceRealDetection then
          { status := 400,
            body := { success := false,
                      error := some ("Face++ API error: " ++ (fp.error).getD "undefined") },
            service_mode := some "faceplus_error" }
        else
          let aiResult := detectEmotionWithAI r.image w
          if aiResult.success && (aiResult.service_used != some "none") then
            { status := 200, body := aiResult, service_mode := some "cloud_ai" }
          else if r.forceRealDetection then
            { status := 503,
              body := { success := false,
                        error := some "All real emotion detection services are unavailable. Please configure Face++ API or other cloud AI services." },
              service_mode := some "no_real_service" }
          else
            { status := 200, body := generateRealisticEmotion (some r.image) w.sim,
              service_mode := some "simulation",
              note := some "Using advanced emotion simulation - enable real detection by configuring Face++ API" }

/- ### Scenario predicates and concrete scenario worlds -/

/-- Every external network call of the recommendations route fails
(credentials may or may not be configured). -/
def recNetDown (w : RecWorld) : Prop :=
  w.cr.spotifyAuthToken = none ∧
  (∀ q, w.cr.omdbSearch q = none) ∧
  (∀ i, w.cr.omdbDetail i = none) ∧
  (∀ g, w.cr.spotifyGenreSearch g = none) ∧
  (∀ q, w.cr.booksSearch q = none) ∧
  (∀ q, w.legacyOmdbSearch q = .netFail) ∧
  (∀ i, w.legacyOmdbDetail i = none) ∧
  w.sc.auth = .authNetFail ∧
  (∀ q, w.sc.search q = .netFail) ∧
  (∀ g, w.sc.recs g = .netFail)

/-- The DeepFace sidecar is down or answers with a non-2xx. -/
def deepfaceDown (w : DetectWorld) : Prop :=
  w.deepfaceHealthy = false ∨ w.deepfaceResult = none

/-- Face++ is unconfigured or its call never yields a parsed face list. -/
def facePlusDown (w : DetectWorld) : Prop :=
  w.facePlusKey = none ∨ w.facePlusSecret = none ∨ ∀ faces, w.fpHttp ≠ .ok faces

/-- Azure Face is unconfigured or its call fails. -/
def azureDown (w : DetectWorld) : Prop :=
  w.azureKey = none ∨ w.azureEndpoint = none ∨ w.azHttp = none

/-- Google Vision is unconfigured or its call fails. -/
def googleDown (w : DetectWorld) : Prop :=
  w.googleKey = none ∨ w.gvHttp = none

/-- Every real emotion provider is unreachable or unconfigured. -/
def allRealProvidersDown (w : DetectWorld) : Prop :=
  deepfaceDown w ∧ facePlusDown w ∧ azureDown w ∧ googleDown w

/-- The Face++ scores of every face the world can return are nonnegative
(Face++ emotion scores are percentages). -/
def fppScoresNonneg (w : DetectWorld) : Prop :=
  ∀ faces, w.fpHttp = .ok faces → ∀ f ∈ faces,
    0 ≤ f.emotions.happiness ∧ 0 ≤ f.emotions.sadness ∧
    0 ≤ f.emotions.anger ∧ 0 ≤ f.emotions.surprise ∧
    0 ≤ f.emotions.neutral ∧ 0 ≤ f.emotions.disgust ∧ 0 ≤ f.emotions.fear

/-- The Azure scores of every face the world can return are nonnegative. -/
def azureScoresNonneg (w : DetectWorld) : Prop :=
  ∀ faces, w.azHttp = some faces → ∀ f ∈ faces,
    0 ≤ f.anger ∧ 0 ≤ f.contempt ∧ 0 ≤ f.disgust ∧ 0 ≤ f.fear ∧
    0 ≤ f.happiness ∧ 0 ≤ f.neutral ∧ 0 ≤ f.sadness ∧ 0 ≤ f.surprise

/-- The simulator's `Math.random()` draws lie in `[0, 1)`. -/
def simRandsValid (s : SimWorld) : Prop :=
  0 ≤ s.rSelect ∧ s.rSelect < 1 ∧ 0 ≤ s.rConf ∧ s.rConf < 1 ∧
  ∀ i, 0 ≤ s.rSecondary i ∧ s.rSecondary i < 1

/-- A fixed simulator context used by concrete witnesses. -/
def simWitnessWorld : SimWorld :=
  { hours := 12, dayOfWeek := 3, rSelect := 1/2, rConf := 1/2,
    rSecondary := fun _ => 1/2 }

/-- A `ContentRecommender` world in which nothing is configured and every
call fails. -/
def crFailWorld : CRWorld :=
  { omdbApiKey := "", spotifyClientId := "", spotifyClientSecret := "",
    googleBooksApiKey := "", spotifyAuthToken := none,
    omdbSearch := fun _ => none, omdbDetail := fun _ => none,
    spotifyGenreSearch := fun _ => none, booksSearch := fun _ => none,
    movieRand := fun _ => 0, musicRand := fun _ => 0, bookRand := fun _ => 0 }

/-- A recommendations-route world in which every network call fails. -/
def recFailWorld : RecWorld :=
  { cr := crFailWorld, crCachedToken := none, enhancedThrows := false,
    legacyRand := fun _ => 0,
    legacyOmdbSearch := fun _ => .netFail,
    legacyOmdbDetail := fun _ => none,
    sc := { auth := .authNetFail, search := fun _ => .netFail, recs := fun _ => .netFail },
    scState := initialSpotifyClientState, scFuel := 1, now := 0,
    songIdRand := fun _ => "x", songRatingRand := fun _ => 0,
    bookIdRand := fun _ => "x", bookRatingRand := fun _ => 0 }

/-- An OMDB search hit manufactured per query for the large-result
scenario. -/
def cxHit (q : String) (i : Nat) : OMDBSearchHit :=
  { Title := "Movie " ++ q ++ toString i, Year := "2001",
    imdbID := "tt" ++ q ++ toString i, Poster := none }

/-- An OMDB detail answer for any id, `Response = True`. -/
def cxDetail (i : String) : OMDBDetail :=
  { imdbID := i, Title := "Title " ++ i, Year := "2001", Response := true,
    Plot := some "A plot.", Poster := none, imdbRating := some 7,
    Genre := some ["Drama"], Director := some "Director", Actors := some "Actors" }

/-- A recommendations-route world in which OMDB is configured and every
of the three searched queries returns four distinct hits whose detail
fetches all succeed, so the enhanced recommender gathers 12 distinct
movies. -/
def recBigWorld : RecWorld :=
  { recFailWorld with
    cr := { crFailWorld with
      omdbApiKey := "realomdbkey",
      omdbSearch := fun q => some ((List.range 4).map (cxHit q)),
      omdbDetail := fun i => some (cxDetail i) } }

/-- A Spotify-client world in which authentication always succeeds and
every Web API call answers 401. -/
def sc401World : SCWorld :=
  { auth := .authOk "token",
    search := fun _ => .httpStatus 401,
    recs := fun _ => .httpStatus 401 }

/-- A detection world with nothing configured and every provider call
failing. -/
def detectFailWorld : DetectWorld :=
  { facePlusKey := none, facePlusSecret := none, azureKey := none,
    azureEndpoint := none, googleKey := none, deepfaceHealthy := false,
    deepfaceResult := none, fpHttp := .netFail "Face++ API network error",
    azHttp := none, gvHttp := none, sim := simWitnessWorld }

/-- A detection world where only Google Vision is configured and it
reports one face with every likelihood `VERY_LIKELY`. -/
def gvLikelyWorld : DetectWorld :=
  { detectFailWorld with
    googleKey := some "googlekey",
    gvHttp := some (some { joyLikelihood := .VERY_LIKELY, sorrowLikelihood := .VERY_LIKELY,
                           angerLikelihood := .VERY_LIKELY, surpriseLikelihood := .VERY_LIKELY }) }

/-- A detection world where Face++ is configured and answers success
with no face found. -/
def fpNoFaceWorld : DetectWorld :=
  { detectFailWorld with
    facePlusKey := some "fppkey", facePlusSecret := some "fppsecret",
    fpHttp := .ok [] }

/-- A data-URL-ish image payload used by concrete witnesses. -/
def witnessImage : String := "data:image/jpeg;base64,c2FtcGxlaW1hZ2ViYXNlNjQ="

/-- The dominant label reported by a result is maximal: its entry in
`all_emotions` is at least every other entry. -/
def dominantIsMax (r : EmotionResponse) : Prop :=
  ∃ v, r.all_emotions.lookup r.emotion = some v ∧
    ∀ p ∈ r.all_emotions, p.2 ≤ v

/-- A detection world where only Azure Face is configured and it answers
success with no face found. -/
def azNoFaceWorld : DetectWorld :=
  { detectFailWorld with
    azureKey := some "azkey", azureEndpoint := some "https://az.example",
    azHttp := some [] }

/- ### Helper lemmas -/

theorem lookup_mem_of_some {α : Type} {l : List (String × α)} {k : String} {v : α}
    (h : l.lookup k = some v) : (k, v) ∈ l := by
  induction l with
  | nil => simp [List.lookup] at h
  | cons p rest ih =>
    obtain ⟨a, b⟩ := p
    simp only [List.lookup] at h
    split at h
    · next hk =>
        obtain rfl : k = a := eq_of_beq hk
        obtain rfl : b = v := by injection h
        exact List.mem_cons_self _ _
    · exact List.mem_cons_of_mem _ (ih h)

theorem lookup_of_mem_nodup {α : Type} {l : List (String × α)}
    (hnd : (l.map Prod.fst).Nodup) {p : String × α} (hp : p ∈ l) :
    l.lookup p.1 = some p.2 := by
  induction l with
  | nil => simp at hp
  | cons q rest ih =>
    obtain ⟨a, b⟩ := q
    simp only [List.map_cons, List.nodup_cons] at hnd
    rcases List.mem_cons.mp hp with h | h
    · subst h
      simp [List.lookup]
    · have hne : p.1 ≠ a := by
        intro hcontra
        exact hnd.1 (hcontra ▸ List.mem_map_of_mem Prod.fst h)
      have hbeq : (p.1 == a) = false := beq_eq_false_iff_ne.mpr hne
      simp only [List.lookup, hbeq]
      exact ih hnd.2 h

theorem lookup_eq_none_of_not_mem {α : Type} {l : List (String × α)} {k : String}
    (h : k ∉ l.map Prod.fst) : l.lookup k = none := by
  induction l with
  | nil => rfl
  | cons q rest ih =>
    obtain ⟨a, b⟩ := q
    simp only [List.map_cons, List.mem_cons] at h
    push_neg at h
    have hbeq : (k == a) = false := beq_eq_false_iff_ne.mpr h.1
    simp only [List.lookup, hbeq]
    exact ih h.2

theorem lookup_append_singleton {α : Type} {l : List (String × α)} {k : String} {x : α}
    (h : k ∉ l.map Prod.fst) : (l ++ [(k, x)]).lookup k = some x := by
  induction l with
  | nil => simp [List.lookup]
  | cons q rest ih =>
    obtain ⟨a, b⟩ := q
    simp only [List.map_cons, List.mem_cons] at h
    push_neg at h
    have hbeq : (k == a) = false := beq_eq_false_iff_ne.mpr h.1
    simp only [List.cons_append, List.lookup, hbeq]
    exact ih h.2

theorem argmaxFold_ge_init (l : List (String × ℚ)) (dom : String) (mx : ℚ) :
    mx ≤ (argmaxFold l dom mx).2 := by
  induction l generalizing dom mx with
  | nil => exact le_refl _
  | cons p rest ih =>
    obtain ⟨k, v⟩ := p
    simp only [argmaxFold]
    split
    · next hlt => exact le_trans (le_of_lt hlt) (ih k v)
    · exact ih dom mx

theorem argmaxFold_ge_mem (l : List (String × ℚ)) (dom : String) (mx : ℚ) :
    ∀ p ∈ l, p.2 ≤ (argmaxFold l dom mx).2 := by
  induction l generalizing dom mx with
  | nil => intro p hp; simp at hp
  | cons q rest ih =>
    obtain ⟨k, v⟩ := q
    intro p hp
    simp only [argmaxFold]
    rcases List.mem_cons.mp hp with h | h
    · subst h
      split
      · exact argmaxFold_ge_init rest _ _
      · next hnlt =>
          exact le_trans (le_of_not_lt hnlt) (argmaxFold_ge_init rest dom mx)
    · split
      · exact ih _ _ p h
      · exact ih _ _ p h

theorem argmaxFold_eq_init_or_mem (l : List (String × ℚ)) (dom : String) (mx : ℚ) :
    argmaxFold l dom mx = (dom, mx) ∨ argmaxFold l dom mx ∈ l := by
  induction l generalizing dom mx with
  | nil => exact Or.inl rfl
  | cons q rest ih =>
    obtain ⟨k, v⟩ := q
    simp only [argmaxFold]
    split
    · rcases ih k v with h | h
      · exact Or.inr (h ▸ List.mem_cons_self _ _)
      · exact Or.inr (List.mem_cons_of_mem _ h)
    · rcases ih dom mx with h | h
      · exact Or.inl h
      · exact Or.inr (List.mem_cons_of_mem _ h)

theorem sumDist_cons (p : String × ℚ) (l : List (String × ℚ)) :
    sumDist (p :: l) = p.2 + sumDist l := rfl

theorem sumDist_append (l1 l2 : List (String × ℚ)) :
    sumDist (l1 ++ l2) = sumDist l1 + sumDist l2 := by
  induction l1 with
  | nil => simp [sumDist]
  | cons p rest ih => simp only [List.cons_append, sumDist_cons, ih]; ring

theorem sumDist_map_div (l : List (String × ℚ)) (c : ℚ) :
    sumDist (l.map (fun p => (p.1, p.2 / c))) = sumDist l / c := by
  induction l with
  | nil => simp [sumDist]
  | cons p rest ih =>
    simp only [List.map_cons, sumDist_cons, ih]
    ring

theorem sumDist_nonneg (l : List (String × ℚ)) (h : ∀ p ∈ l, 0 ≤ p.2) :
    0 ≤ sumDist l := by
  induction l with
  | nil => exact le_refl _
  | cons p rest ih =>
    rw [sumDist_cons]
    have h1 := h p (List.mem_cons_self _ _)
    have h2 := ih (fun q hq => h q (List.mem_cons_of_mem _ hq))
    linarith

theorem listSwap_length {α : Type} (l : List α) (i j : Nat) :
    (listSwap l i j).length = l.length := by
  unfold listSwap
  split
  · simp
  · rfl

theorem shuffleGo_length {α : Type} (rand : Nat → Nat) :
    ∀ (n : Nat) (l : List α), (shuffleGo rand n l).length = l.length := by
  intro n
  induction n with
  | zero => intro l; rfl
  | succ i ih =>
    intro l
    simp only [shuffleGo]
    rw [ih, listSwap_length]

theorem shuffleWith_length {α : Type} (rand : Nat → Nat) (l : List α) :
    (shuffleWith rand l).length = l.length := by
  unfold shuffleWith
  exact shuffleGo_length rand _ l

theorem flatMap_const_nil {α β : Type} (l : List α) :
    (l.flatMap (fun _ => ([] : List β))) = [] := by
  induction l with
  | nil => rfl
  | cons x rest ih => simp [List.flatMap_cons, ih]

theorem getFallbackMovies_length (e : String) : (getFallbackMovies e).length = 3 := by
  unfold getFallbackMovies jsLookupD
  rcases h : fallbackMoviesTable.lookup e with _ | v
  · decide
  · have hv : v ∈ fallbackMoviesTable.map Prod.snd :=
      List.mem_map_of_mem Prod.snd (lookup_mem_of_some h)
    simp only [fallbackMoviesTable, List.map_cons, List.map_nil, List.mem_cons,
      List.not_mem_nil, or_false] at hv
    rcases hv with rfl | rfl | rfl | rfl | rfl | rfl | rfl <;> decide

theorem getFallbackSongs_length (e : String) : (getFallbackSongs e).length = 3 := by
  unfold getFallbackSongs jsLookupD
  rcases h : fallbackSongsTable.lookup e with _ | v
  · decide
  · have hv : v ∈ fallbackSongsTable.map Prod.snd :=
      List.mem_map_of_mem Prod.snd (lookup_mem_of_some h)
    simp only [fallbackSongsTable, List.map_cons, List.map_nil, List.mem_cons,
      List.not_mem_nil, or_false] at hv
    rcases hv with rfl | rfl | rfl | rfl | rfl | rfl | rfl <;> decide

theorem getGoodreadsStyleBooks_length (e : String) :
    (getGoodreadsStyleBooks e).length = 3 := by
  unfold getGoodreadsStyleBooks jsLookupD
  rcases h : goodreadsBooksTable.lookup e with _ | v
  · decide
  · have hv : v ∈ goodreadsBooksTable.map Prod.snd :=
      List.mem_map_of_mem Prod.snd (lookup_mem_of_some h)
    simp only [goodreadsBooksTable, List.map_cons, List.map_nil, List.mem_cons,
      List.not_mem_nil, or_false] at hv
    rcases hv with rfl | rfl | rfl | rfl | rfl | rfl | rfl <;> decide

theorem getFallbackBooks_length (e : String) : (getFallbackBooks e).length = 3 := by
  unfold getFallbackBooks jsLookupD
  rcases h : fallbackBooksTable.lookup e with _ | v
  · decide
  · have hv : v ∈ fallbackBooksTable.map Prod.snd :=
      List.mem_map_of_mem Prod.snd (lookup_mem_of_some h)
    simp only [fallbackBooksTable, List.map_cons, List.map_nil, List.mem_cons,
      List.not_mem_nil, or_false] at hv
    rcases hv with rfl | rfl | rfl | rfl | rfl | rfl | rfl <;> decide

theorem getFallbackMovies_ne_nil (e : String) : getFallbackMovies e ≠ [] := by
  intro h
  have := getFallbackMovies_length e
  rw [h] at this
  simp at this

theorem getFallbackSongs_ne_nil (e : String) : getFallbackSongs e ≠ [] := by
  intro h
  have := getFallbackSongs_length e
  rw [h] at this
  simp at this

theorem getGoodreadsStyleBooks_ne_nil (e : String) : getGoodreadsStyleBooks e ≠ [] := by
  intro h
  have := getGoodreadsStyleBooks_length e
  rw [h] at this
  simp at this

/- ### C10 — totality of the static fallback getters -/

/-- C10: for each of the seven emotion labels, `getFallbackMovies`,
`getFallbackSongs` and `getGoodreadsStyleBooks` return exactly 3 items,
each with a non-empty title and a non-empty link; any argument outside
the seven-label table gets the neutral list. -/
theorem C10_fallback_getters_total :
    (∀ e ∈ canonicalEmotions,
      (getFallbackMovies e).length = 3 ∧ (getFallbackSongs e).length = 3 ∧
      (getGoodreadsStyleBooks e).length = 3 ∧
      (∀ r ∈ getFallbackMovies e ++ getFallbackSongs e ++ getGoodreadsStyleBooks e,
        r.title ≠ "" ∧ r.link ≠ "")) ∧
    (∀ s, s ∉ canonicalEmotions →
      getFallbackMovies s = fallbackMovies_neutral ∧
      getFallbackSongs s = fallbackSongs_neutral ∧
      getGoodreadsStyleBooks s = goodreadsBooks_neutral) := by
  constructor
  · intro e he
    simp only [canonicalEmotions, List.mem_cons, List.not_mem_nil, or_false] at he
    rcases he with rfl | rfl | rfl | rfl | rfl | rfl | rfl <;> exact ⟨by decide, by decide, by decide, by decide⟩
  · intro s hs
    simp only [canonicalEmotions, List.mem_cons, List.not_mem_nil, or_false, not_or] at hs
    obtain ⟨h1, h2, h3, h4, h5, h6, h7⟩ := hs
    refine ⟨?_, ?_, ?_⟩
    · unfold getFallbackMovies jsLookupD
      rw [lookup_eq_none_of_not_mem]
      · rfl
      simp only [fallbackMoviesTable, List.map_cons, List.map_nil, List.mem_cons,
        List.not_mem_nil, or_false, not_or]
      exact ⟨h1, h2, h5, h3, h4, h6, h7⟩
    · unfold getFallbackSongs jsLookupD
      rw [lookup_eq_none_of_not_mem]
      · rfl
      simp only [fallbackSongsTable, List.map_cons, List.map_nil, List.mem_cons,
        List.not_mem_nil, or_false, not_or]
      exact ⟨h1, h2, h5, h3, h4, h6, h7⟩
    · unfold getGoodreadsStyleBooks jsLookupD
      rw [lookup_eq_none_of_not_mem]
      · rfl
      simp only [goodreadsBooksTable, List.map_cons, List.map_nil, List.mem_cons,
        List.not_mem_nil, or_false, not_or]
      exact ⟨h1, h2, h5, h3, h4, h6, h7⟩

/-- Witness for C10 at the concrete label `"happy"` and the concrete
out-of-table argument `"bogus"`. -/
theorem C10_witness :
    (getFallbackMovies "happy").length = 3 ∧
    getFallbackMovies "bogus" = fallbackMovies_neutral :=
  ⟨(C10_fallback_getters_total.1 "happy" (by decide)).1,
   (C10_fallback_getters_total.2 "bogus" (by decide)).1⟩

theorem CR_getMovieRecommendations_netDown (e : String) (w : CRWorld)
    (hs : ∀ q, w.omdbSearch q = none) :
    CR_getMovieRecommendations e w = .error "OMDB API key missing or invalid" ∨
    CR_getMovieRecommendations e w = .ok [] := by
  unfold CR_getMovieRecommendations
  split
  · exact Or.inl rfl
  · right
    simp only [hs]
    rw [flatMap_const_nil]
    rfl

theorem CR_getMusicRecommendations_netDown (e : String) (cached : Option String)
    (w : CRWorld) (hg : ∀ g, w.spotifyGenreSearch g = none)
    (ha : w.spotifyAuthToken = none) :
    CR_getMusicRecommendations e cached w = [] := by
  unfold CR_getMusicRecommendations CR_getSpotifyToken
  by_cases hid : w.spotifyClientId = "" ∨ w.spotifyClientSecret = ""
  · simp [hid]
  · cases cached with
    | none => simp [hid, ha]
    | some t =>
      simp only [hid, if_false, ha]
      simp only [hg]
      rw [flatMap_const_nil]
      rfl

theorem CR_getBookRecommendations_netDown (e : String) (w : CRWorld)
    (hb : ∀ q, w.booksSearch q = none) :
    CR_getBookRecommendations e w = [] := by
  unfold CR_getBookRecommendations
  simp only [hb]
  rw [flatMap_const_nil]
  rfl

theorem CR_getRecommendations_netDown (e : String) (cached : Option String)
    (w : CRWorld) (hs : ∀ q, w.omdbSearch q = none)
    (hg : ∀ g, w.spotifyGenreSearch g = none) (hb : ∀ q, w.booksSearch q = none)
    (ha : w.spotifyAuthToken = none) :
    CR_getRecommendations e cached w = ⟨[], [], []⟩ := by
  unfold CR_getRecommendations
  rw [CR_getMusicRecommendations_netDown e cached w hg ha,
      CR_getBookRecommendations_netDown e w hb]
  rcases CR_getMovieRecommendations_netDown e w hs with h | h <;> rw [h]

theorem SC_getRecommendations_netDown (w : SCWorld) (g : List String) (now : Int)
    (hrecs : ∀ gg, w.recs gg = .netFail) (fuel : Nat) (st : SpotifyClientState) :
    SC_getRecommendations w g now fuel st = none ∨
    ∃ st', SC_getRecommendations w g now fuel st = some ([], st') := by
  cases fuel with
  | zero => exact Or.inl rfl
  | succ n =>
    right
    rcases hh : SC_getAccessToken st now w with ⟨tokOpt, st'⟩
    cases tokOpt with
    | none => exact ⟨st', by simp only [SC_getRecommendations, hh]⟩
    | some t => exact ⟨st', by simp only [SC_getRecommendations, hh, hrecs]⟩

theorem SC_searchTracks_netDown (w : SCWorld) (q : String) (now : Int)
    (hsearch : ∀ qq, w.search qq = .netFail) (fuel : Nat) (st : SpotifyClientState) :
    SC_searchTracks w q now fuel st = none ∨
    ∃ st', SC_searchTracks w q now fuel st = some ([], st') := by
  cases fuel with
  | zero => exact Or.inl rfl
  | succ n =>
    right
    rcases hh : SC_getAccessToken st now w with ⟨tokOpt, st'⟩
    cases tokOpt with
    | none => exact ⟨st', by simp only [SC_searchTracks, hh]⟩
    | some t => exact ⟨st', by simp only [SC_searchTracks, hh, hsearch]⟩

theorem SC_searchTracks_netDown_some (w : SCWorld) (q : String) (now : Int)
    (hsearch : ∀ qq, w.search qq = .netFail) (fuel : Nat) (st : SpotifyClientState)
    (res : List SpotifyTrack × SpotifyClientState)
    (h : SC_searchTracks w q now fuel st = some res) : res.1 = [] := by
  rcases SC_searchTracks_netDown w q now hsearch fuel st with hX | ⟨st', hX⟩
  · rw [h] at hX; cases hX
  · rw [h] at hX
    injection hX with hX
    rw [hX]

theorem SC_getRecommendations_netDown_some (w : SCWorld) (g : List String) (now : Int)
    (hrecs : ∀ gg, w.recs gg = .netFail) (fuel : Nat) (st : SpotifyClientState)
    (res : List SpotifyTrack × SpotifyClientState)
    (h : SC_getRecommendations w g now fuel st = some res) : res.1 = [] := by
  rcases SC_getRecommendations_netDown w g now hrecs fuel st with hX | ⟨st', hX⟩
  · rw [h] at hX; cases hX
  · rw [h] at hX
    injection hX with hX
    rw [hX]

theorem songsStep1_netDown (cfg : EmotionConfigEntry) (w : RecWorld)
    (hrecs : ∀ gg, w.sc.recs gg = .netFail) : (songsStep1 cfg w).1 = [] := by
  unfold songsStep1
  rcases h1 : SC_getRecommendations w.sc cfg.songs.genres w.now w.scFuel w.scState
      with _ | ⟨tracks, st1⟩
  · rfl
  · have ht : tracks = [] :=
      SC_getRecommendations_netDown_some w.sc _ w.now hrecs w.scFuel _ _ h1
    subst ht
    simp

theorem songsStep2_netDown (cfg : EmotionConfigEntry) (w : RecWorld)
    (hsearch : ∀ qq, w.sc.search qq = .netFail)
    (hrecs : ∀ gg, w.sc.recs gg = .netFail) : (songsStep2 cfg w).1 = [] := by
  unfold songsStep2
  dsimp only
  have h1 := songsStep1_netDown cfg w hrecs
  rw [h1]
  simp only [List.length_nil, Nat.zero_lt_succ, if_true]
  rcases h2 : SC_searchTracks w.sc
      (cfg.songs.queries.getD (w.legacyRand 1 % cfg.songs.queries.length) "")
      w.now w.scFuel (songsStep1 cfg w).2 with _ | ⟨tracks2, st2⟩
  · exact h1
  · have ht : tracks2 = [] :=
      SC_searchTracks_netDown_some w.sc _ w.now hsearch w.scFuel _ _ h2
    subst ht
    simp [h1]

theorem fetchSpotifySongs_netDown (e : String) (w : RecWorld)
    (hsearch : ∀ qq, w.sc.search qq = .netFail)
    (hrecs : ∀ gg, w.sc.recs gg = .netFail) :
    (fetchSpotifySongs e w).1 = getFallbackSongs e := by
  unfold fetchSpotifySongs
  cases hcfg : emotionConfig.lookup e with
  | none => rfl
  | some cfg =>
    by_cases hav : w.scState.isAvailable
    · simp [hav, songsStep2_netDown cfg w hsearch hrecs]
    · simp [hav]

theorem fetchMovies_netDown (e : String) (w : RecWorld)
    (hleg : ∀ q, w.legacyOmdbSearch q = .netFail) :
    fetchMovies e w = getFallbackMovies e := by
  unfold fetchMovies
  cases hcfg : emotionConfig.lookup e with
  | none => rfl
  | some cfg =>
    simp only [hleg]
    split <;> rfl

theorem originalLogic_netDown (e : String) (w : RecWorld)
    (hleg : ∀ q, w.legacyOmdbSearch q = .netFail)
    (hsearch : ∀ qq, w.sc.search qq = .netFail)
    (hrecs : ∀ gg, w.sc.recs gg = .netFail)
    (hsome : (emotionConfig.lookup e).isSome = true) :
    (originalLogic e w).status = 200 ∧
    (originalLogic e w).movies = getFallbackMovies e ∧
    (originalLogic e w).songs = getFallbackSongs e ∧
    (originalLogic e w).books = getGoodreadsStyleBooks e := by
  obtain ⟨cfg, hcfg⟩ := Option.isSome_iff_exists.mp hsome
  refine ⟨rfl, fetchMovies_netDown e w hleg, fetchSpotifySongs_netDown e w hsearch hrecs, ?_⟩
  show fetchBooks e = getGoodreadsStyleBooks e
  unfold fetchBooks
  rw [hcfg]

theorem emotionConfig_lookup_isSome {e : String} (he : e ∈ canonicalEmotions) :
    (emotionConfig.lookup e).isSome = true := by
  simp only [canonicalEmotions, List.mem_cons, List.not_mem_nil, or_false] at he
  rcases he with rfl | rfl | rfl | rfl | rfl | rfl | rfl <;> rfl

theorem enhancedBranch_netDown (e : String) (w : RecWorld)
    (hs : ∀ q, w.cr.omdbSearch q = none)
    (hg : ∀ g, w.cr.spotifyGenreSearch g = none)
    (hb : ∀ q, w.cr.booksSearch q = none)
    (ha : w.cr.spotifyAuthToken = none) :
    enhancedBranch e w =
      some { status := 200, movies := getFallbackMovies e,
             songs := getFallbackSongs e, books := getGoodreadsStyleBooks e,
             spotify_available := w.scState.isAvailable,
             omdb_configured := w.cr.omdbApiKey != "",
             enhanced_backend := true, error := none } := by
  unfold enhancedBranch
  rw [CR_getRecommendations_netDown e w.crCachedToken w.cr hs hg hb ha]
  simp only [List.map_nil, List.enum_nil, List.isEmpty_nil, if_true]
  rw [if_pos]
  · left
    simpa using getFallbackMovies_ne_nil e

/- ### C1 — the static fallback guarantee of the recommendation endpoint -/

/-- C1: for each of the seven canonical emotions, when every external
network call fails the recommendation `POST` still answers 200 with the
static per-emotion fallback lists, hence with non-empty movie, song and
book lists — regardless of configured credentials, of the recommender's
cached token and of whether the enhanced branch ran or threw. -/
theorem C1_recommend_nonempty_on_total_failure :
    ∀ e ∈ canonicalEmotions, ∀ w : RecWorld, recNetDown w →
      (recommendPOST (some e) w).status = 200 ∧
      (recommendPOST (some e) w).movies = getFallbackMovies e ∧
      (recommendPOST (some e) w).songs = getFallbackSongs e ∧
      (recommendPOST (some e) w).books = getGoodreadsStyleBooks e ∧
      (recommendPOST (some e) w).movies ≠ [] ∧
      (recommendPOST (some e) w).songs ≠ [] ∧
      (recommendPOST (some e) w).books ≠ [] := by
  intro e he w hnet
  obtain ⟨ha1, hs1, hd1, hg1, hb1, hleg, hld, hauth, hsearch, hrecs⟩ := hnet
  have hsome := emotionConfig_lookup_isSome he
  have hmain : (recommendPOST (some e) w).status = 200 ∧
      (recommendPOST (some e) w).movies = getFallbackMovies e ∧
      (recommendPOST (some e) w).songs = getFallbackSongs e ∧
      (recommendPOST (some e) w).books = getGoodreadsStyleBooks e := by
    unfold recommendPOST
    have hnone : (emotionConfig.lookup e).isNone = false := by
      rcases hO : emotionConfig.lookup e with _ | v
      · rw [hO] at hsome; cases hsome
      · rfl
    simp only [hnone, Bool.false_eq_true, if_false]
    cases hthrow : w.enhancedThrows with
    | true =>
      simp only [if_true]
      exact originalLogic_netDown e w hleg hsearch hrecs hsome
    | false =>
      simp only [Bool.false_eq_true, if_false]
      rw [enhancedBranch_netDown e w hs1 hg1 hb1 ha1]
      exact ⟨rfl, rfl, rfl, rfl⟩
  refine ⟨hmain.1, hmain.2.1, hmain.2.2.1, hmain.2.2.2, ?_, ?_, ?_⟩
  · rw [hmain.2.1]; exact getFallbackMovies_ne_nil e
  · rw [hmain.2.2.1]; exact getFallbackSongs_ne_nil e
  · rw [hmain.2.2.2]; exact getGoodreadsStyleBooks_ne_nil e

/-- Witness for C1 at the concrete emotion `"happy"` and the concrete
all-failing world. -/
theorem C1_witness :
    (recommendPOST (some "happy") recFailWorld).movies ≠ [] ∧
    (recommendPOST (some "happy") recFailWorld).songs ≠ [] ∧
    (recommendPOST (some "happy") recFailWorld).books ≠ [] := by
  have h := C1_recommend_nonempty_on_total_failure "happy" (by decide) recFailWorld
    (by refine ⟨rfl, fun q => rfl, fun i => rfl, fun g => rfl, fun q => rfl,
          fun q => rfl, fun i => rfl, rfl, fun q => rfl, fun g => rfl⟩)
  exact ⟨h.2.2.2.2.1, h.2.2.2.2.2.1, h.2.2.2.2.2.2⟩

/- ### C7 — the exact "happy" fallback lists under total failure -/

/-- C7: with every content provider failing, the `"happy"` request
returns exactly the fixed fallback lists: 3 movies headed by "The Grand
Budapest Hotel", the song list headed by "Happy - Pharrell Williams" and
the book list headed by "The Seven Husbands of Evelyn Hugo". -/
theorem C7_happy_exact_fallbacks :
    ∀ w : RecWorld, recNetDown w →
      (recommendPOST (some "happy") w).movies = fallbackMovies_happy ∧
      (recommendPOST (some "happy") w).songs = fallbackSongs_happy ∧
      (recommendPOST (some "happy") w).books = goodreadsBooks_happy ∧
      (recommendPOST (some "happy") w).movies.length = 3 ∧
      ((recommendPOST (some "happy") w).movies.head?).map Recommendation.title =
        some "The Grand Budapest Hotel" ∧
      ((recommendPOST (some "happy") w).songs.head?).map Recommendation.title =
        some "Happy - Pharrell Williams" ∧
      ((recommendPOST (some "happy") w).books.head?).map Recommendation.title =
        some "The Seven Husbands of Evelyn Hugo" := by
  intro w hnet
  have h := C1_recommend_nonempty_on_total_failure "happy" (by decide) w hnet
  have hm : getFallbackMovies "happy" = fallbackMovies_happy := rfl
  have hs : getFallbackSongs "happy" = fallbackSongs_happy := rfl
  have hb : getGoodreadsStyleBooks "happy" = goodreadsBooks_happy := rfl
  rw [hm] at h
  rw [hs] at h
  rw [hb] at h
  refine ⟨h.2.1, h.2.2.1, h.2.2.2.1, ?_, ?_, ?_, ?_⟩
  · rw [h.2.1]; decide
  · rw [h.2.1]; decide
  · rw [h.2.2.1]; decide
  · rw [h.2.2.2.1]; decide

/-- Witness for C7 at the concrete all-failing world. -/
theorem C7_witness :
    ((recommendPOST (some "happy") recFailWorld).movies.head?).map Recommendation.title =
      some "The Grand Budapest Hotel" ∧
    ((recommendPOST (some "happy") recFailWorld).songs.head?).map Recommendation.title =
      some "Happy - Pharrell Williams" ∧
    ((recommendPOST (some "happy") recFailWorld).books.head?).map Recommendation.title =
      some "The Seven Husbands of Evelyn Hugo" := by
  have h := C7_happy_exact_fallbacks recFailWorld
    (by refine ⟨rfl, fun q => rfl, fun i => rfl, fun g => rfl, fun q => rfl,
          fun q => rfl, fun i => rfl, rfl, fun q => rfl, fun g => rfl⟩)
  exact ⟨h.2.2.2.2.1, h.2.2.2.2.2.1, h.2.2.2.2.2.2⟩

theorem fetchMovies_length_le (e : String) (w : RecWorld) :
    (fetchMovies e w).length ≤ 3 := by
  unfold fetchMovies
  cases hcfg : emotionConfig.lookup e with
  | none => exact le_of_eq (getFallbackMovies_length e)
  | some cfg =>
    dsimp only
    split
    · exact le_of_eq (getFallbackMovies_length e)
    · split
      · exact le_of_eq (getFallbackMovies_length e)
      · exact le_of_eq (getFallbackMovies_length e)
      · split
        · exact le_of_eq (getFallbackMovies_length e)
        · rw [List.length_map]
          exact List.length_take_le 3 _

theorem songsStep1_length_le (cfg : EmotionConfigEntry) (w : RecWorld) :
    (songsStep1 cfg w).1.length ≤ 3 := by
  unfold songsStep1
  rcases SC_getRecommendations w.sc cfg.songs.genres w.now w.scFuel w.scState
      with _ | ⟨tracks, st1⟩
  · simp
  · dsimp only
    split
    · simp
    · rw [List.length_map]
      exact List.length_take_le 3 _

theorem songsStep2_length_le (cfg : EmotionConfigEntry) (w : RecWorld) :
    (songsStep2 cfg w).1.length ≤ 3 := by
  unfold songsStep2
  dsimp only
  have h1 := songsStep1_length_le cfg w
  split
  · rcases SC_searchTracks w.sc
        (cfg.songs.queries.getD (w.legacyRand 1 % cfg.songs.queries.length) "")
        w.now w.scFuel (songsStep1 cfg w).2 with _ | ⟨tracks2, st2⟩
    · exact h1
    · dsimp only
      rw [List.length_append]
      split
      · simpa using h1
      · rw [List.length_map]
        have := List.length_take_le (3 - (songsStep1 cfg w).1.length) tracks2
        omega
  · exact h1

theorem fetchSpotifySongs_length_le (e : String) (w : RecWorld) :
    (fetchSpotifySongs e w).1.length ≤ 3 := by
  unfold fetchSpotifySongs
  cases hcfg : emotionConfig.lookup e with
  | none => exact le_of_eq (getFallbackSongs_length e)
  | some cfg =>
    by_cases hav : w.scState.isAvailable
    · by_cases hempty : (songsStep2 cfg w).1.isEmpty
      · simp [hav, hempty, getFallbackSongs_length]
      · simp [hav, hempty, songsStep2_length_le cfg w]
    · simp [hav, getFallbackSongs_length]

theorem fetchBooks_length (e : String) : (fetchBooks e).length = 3 := by
  unfold fetchBooks
  cases emotionConfig.lookup e with
  | none => exact getFallbackBooks_length e
  | some cfg => exact getGoodreadsStyleBooks_length e

theorem CR_movies_length_le (e : String) (w : CRWorld) :
    (match CR_getMovieRecommendations e w with
      | .ok l => l | .error _ => ([] : List CRMovie)).length ≤ 10 := by
  rcases h : CR_getMovieRecommendations e w with msg | l
  · simp
  · unfold CR_getMovieRecommendations at h
    split at h
    · cases h
    · dsimp only at h
      injection h with h
      rw [← h]
      exact List.length_take_le 10 _

theorem CR_music_length_le (e : String) (cached : Option String) (w : CRWorld) :
    (CR_getMusicRecommendations e cached w).length ≤ 15 := by
  unfold CR_getMusicRecommendations
  rcases h : CR_getSpotifyToken cached w with _ | t
  · simp
  · exact List.length_take_le 15 _

theorem CR_books_length_le (e : String) (w : CRWorld) :
    (CR_getBookRecommendations e w).length ≤ 10 := by
  unfold CR_getBookRecommendations
  exact List.length_take_le 10 _

theorem CRRecs_movies_le (e : String) (cached : Option String) (w : CRWorld) :
    (CR_getRecommendations e cached w).movies.length ≤ 10 := by
  unfold CR_getRecommendations
  exact CR_movies_length_le e w

theorem CRRecs_music_le (e : String) (cached : Option String) (w : CRWorld) :
    (CR_getRecommendations e cached w).music.length ≤ 15 :=
  CR_music_length_le e cached w

theorem CRRecs_books_le (e : String) (cached : Option String) (w : CRWorld) :
    (CR_getRecommendations e cached w).books.length ≤ 10 :=
  CR_books_length_le e w

theorem enhancedBranch_bounds (e : String) (w : RecWorld) (r : RecResponse)
    (h : enhancedBranch e w = some r) :
    r.movies.length ≤ 10 ∧ r.songs.length ≤ 15 ∧ r.books.length ≤ 10 ∧
    r.enhanced_backend = true := by
  unfold enhancedBranch at h
  dsimp only at h
  set tM := (CR_getRecommendations e w.crCachedToken w.cr).movies.map transformMovie
    with htM
  set tS := ((CR_getRecommendations e w.crCachedToken w.cr).music.enum).map
    (fun p => transformSong w p.1 p.2) with htS
  set tB := ((CR_getRecommendations e w.crCachedToken w.cr).books.enum).map
    (fun p => transformBook w p.1 p.2) with htB
  set mR := if tM.isEmpty then getFallbackMovies e else tM with hmR
  set sR := if tS.isEmpty then getFallbackSongs e else tS with hsR
  set bR := if tB.isEmpty then getGoodreadsStyleBooks e else tB with hbR
  split at h
  · injection h with h
    rw [← h]
    refine ⟨?_, ?_, ?_, rfl⟩
    · rw [hmR]
      split
      · rw [getFallbackMovies_length]; omega
      · rw [htM, List.length_map]
        exact CRRecs_movies_le e w.crCachedToken w.cr
    · rw [hsR]
      split
      · rw [getFallbackSongs_length]; omega
      · rw [htS, List.length_map, List.enum_length]
        exact CRRecs_music_le e w.crCachedToken w.cr
    · rw [hbR]
      split
      · rw [getGoodreadsStyleBooks_length]; omega
      · rw [htB, List.length_map, List.enum_length]
        exact CRRecs_books_le e w.crCachedToken w.cr
  · cases h

theorem originalLogic_bounds (e : String) (w : RecWorld) :
    (originalLogic e w).movies.length ≤ 3 ∧
    (originalLogic e w).songs.length ≤ 3 ∧
    (originalLogic e w).books.length ≤ 3 :=
  ⟨fetchMovies_length_le e w, fetchSpotifySongs_length_le e w,
   le_of_eq (fetchBooks_length e)⟩

/- ### C8 — the per-kind caps of the recommendation endpoint -/

/-- Counterexample to C8: with OMDB configured and three productive
searches, the endpoint answers with a 10-item movie list — not a list
capped at (approximately) 3. -/
theorem C8_counterexample :
    (recommendPOST (some "happy") recBigWorld).movies.length = 10 ∧
    ¬ ((recommendPOST (some "happy") recBigWorld).movies.length ≤ 3) := by
  constructor <;> decide

/-- C8 (amended): the endpoint's lists are capped, but at the enhanced
recommender's caps of 10 movies, 15 songs and 10 books; only the
original (non-enhanced) logic and the static fallbacks cap at 3. -/
theorem C8_amended_caps (body : Option String) (w : RecWorld) :
    (recommendPOST body w).movies.length ≤ 10 ∧
    (recommendPOST body w).songs.length ≤ 15 ∧
    (recommendPOST body w).books.length ≤ 10 ∧
    ((recommendPOST body w).enhanced_backend = false →
      (recommendPOST body w).movies.length ≤ 3 ∧
      (recommendPOST body w).songs.length ≤ 3 ∧
      (recommendPOST body w).books.length ≤ 3) := by
  cases body with
  | none =>
    refine ⟨?_, ?_, ?_, fun _ => ⟨?_, ?_, ?_⟩⟩
    · show (getFallbackMovies "neutral").length ≤ 10
      decide
    · show (getFallbackSongs "neutral").length ≤ 15
      decide
    · show (getFallbackBooks "neutral").length ≤ 10
      decide
    · show (getFallbackMovies "neutral").length ≤ 3
      decide
    · show (getFallbackSongs "neutral").length ≤ 3
      decide
    · show (getFallbackBooks "neutral").length ≤ 3
      decide
  | some emotion =>
    unfold recommendPOST
    by_cases hval : (emotionConfig.lookup emotion).isNone
    · simp only [hval, if_true]
      exact ⟨by decide, by decide, by decide, fun _ => ⟨by decide, by decide, by decide⟩⟩
    · have hvf : (emotionConfig.lookup emotion).isNone = false := Bool.of_not_eq_true hval
      simp only [hvf, Bool.false_eq_true, if_false]
      have horig : (originalLogic emotion w).movies.length ≤ 10 ∧
          (originalLogic emotion w).songs.length ≤ 15 ∧
          (originalLogic emotion w).books.length ≤ 10 ∧
          ((originalLogic emotion w).enhanced_backend = false →
            (originalLogic emotion w).movies.length ≤ 3 ∧
            (originalLogic emotion w).songs.length ≤ 3 ∧
            (originalLogic emotion w).books.length ≤ 3) := by
        obtain ⟨h1, h2, h3⟩ := originalLogic_bounds emotion w
        exact ⟨le_trans h1 (by omega), le_trans h2 (by omega), le_trans h3 (by omega),
               fun _ => ⟨h1, h2, h3⟩⟩
      cases hthrow : w.enhancedThrows with
      | true => simp only [if_true]; exact horig
      | false =>
        simp only [Bool.false_eq_true, if_false]
        rcases h : enhancedBranch emotion w with _ | r
        · exact horig
        · obtain ⟨h1, h2, h3, h4⟩ := enhancedBranch_bounds emotion w r h
          refine ⟨h1, h2, h3, fun hff => ?_⟩
          rw [h4] at hff
          simp at hff

/- ### C5 — the 401 retry of the SpotifyClient is unbounded -/

theorem SC_getAccessToken_401World (st : SpotifyClientState) (now : Int)
    (hav : st.isAvailable = true) :
    ∃ t st', SC_getAccessToken st now sc401World = (some t, st') ∧
      st'.isAvailable = true := by
  unfold SC_getAccessToken SC_getAccessToken.authAttempt
  cases hac : st.accessToken with
  | some t => exact ⟨t, st, by simp [hav], hav⟩
  | none =>
    refine ⟨"token",
      { accessToken := some "token", isAvailable := true, lastCheck := now }, ?_, rfl⟩
    simp [hav, sc401World]

/-- C5: when the Spotify Web API answers 401 to every request while
authentication keeps succeeding, `searchTracks` and `getRecommendations`
never terminate with an answer, for every recursion budget: the
source's "retry once" 401 branch is in fact an unbounded recursion
(a stack overflow in JavaScript), contradicting its own
`// Token expired, clear it and retry once` comment. -/
theorem C5_search401_never_terminates :
    ∀ (fuel : Nat) (st : SpotifyClientState) (now : Int) (q : String) (g : List String),
      st.isAvailable = true →
      SC_searchTracks sc401World q now fuel st = none ∧
      SC_getRecommendations sc401World g now fuel st = none := by
  intro fuel
  induction fuel with
  | zero => intro st now q g hav; exact ⟨rfl, rfl⟩
  | succ n ih =>
    intro st now q g hav
    rcases SC_getAccessToken_401World st now hav with ⟨t, st', hac, hav'⟩
    have hsq : sc401World.search q = .httpStatus 401 := rfl
    have hrg : sc401World.recs (g.take 5) = .httpStatus 401 := rfl
    constructor
    · simp only [SC_searchTracks, hac, hsq]
      exact (ih _ now q g (by simpa using hav')).1
    · simp only [SC_getRecommendations, hac, hrg]
      exact (ih _ now q g (by simpa using hav')).2

/-- Witness for C5 at a concrete budget and the initial client state. -/
theorem C5_witness :
    initialSpotifyClientState.isAvailable = true ∧
    SC_searchTracks sc401World "upbeat" 0 5 initialSpotifyClientState = none ∧
    SC_getRecommendations sc401World ["pop"] 0 5 initialSpotifyClientState = none :=
  ⟨rfl,
   (C5_search401_never_terminates 5 initialSpotifyClientState 0 "upbeat" ["pop"] rfl).1,
   (C5_search401_never_terminates 5 initialSpotifyClientState 0 "upbeat" ["pop"] rfl).2⟩

/- ### C6 — the token-refresh endpoint's cache -/

/-- C6: a call that finds an unexpired cached token answers it with zero
external authentication calls; and for two successive calls starting
from an empty cache, the first issues exactly one authentication call
and the second — arriving before the cached expiry (stored 5 minutes
before the provider-reported lifetime) — issues none and returns the
same token: at most one authentication call per token lifetime. -/
theorem C6_token_cache_single_auth :
    (∀ (cache : Option CachedToken) (now : Int) (cid csec : String)
       (grant : SpotifyGrantOutcome) (t : CachedToken),
       cache = some t → now < t.expires_at →
       spotifyAuthPOST cache now cid csec grant =
         ({ status := 200, access_token := some t.access_token, cached := some true,
            expires_in := none, error := none, fallback := none }, cache, 0)) ∧
    (∀ (now1 now2 : Int) (cid csec : String) (tok : String) (expiresIn : Int)
       (grant2 : SpotifyGrantOutcome),
       cid ≠ "" → csec ≠ "" →
       now2 < now1 + (expiresIn - 300) * 1000 →
       (spotifyAuthPOST none now1 cid csec (some (tok, expiresIn))).2.2 = 1 ∧
       (spotifyAuthPOST
          (spotifyAuthPOST none now1 cid csec (some (tok, expiresIn))).2.1
          now2 cid csec grant2).2.2 = 0 ∧
       (spotifyAuthPOST
          (spotifyAuthPOST none now1 cid csec (some (tok, expiresIn))).2.1
          now2 cid csec grant2).1.access_token = some tok) := by
  constructor
  · intro cache now cid csec grant t hc hlt
    subst hc
    unfold spotifyAuthPOST
    simp [hlt]
  · intro now1 now2 cid csec tok expiresIn grant2 hcid hcsec hlt
    have h1 : spotifyAuthPOST none now1 cid csec (some (tok, expiresIn)) =
        ({ status := 200, access_token := some tok, cached := some false,
           expires_in := some expiresIn, error := none, fallback := none },
         some { access_token := tok, expires_at := now1 + (expiresIn - 300) * 1000 }, 1) := by
      unfold spotifyAuthPOST spotifyAuthPOST.freshGrant
      simp [hcid, hcsec]
    rw [h1]
    refine ⟨rfl, ?_, ?_⟩
    · unfold spotifyAuthPOST
      simp [hlt]
    · unfold spotifyAuthPOST
      simp [hlt]

/-- Witness for C6 at concrete timestamps and a concrete grant. -/
theorem C6_witness :
    (spotifyAuthPOST none 0 "cid" "csec" (some ("tok", 3600))).2.2 = 1 ∧
    (spotifyAuthPOST (spotifyAuthPOST none 0 "cid" "csec" (some ("tok", 3600))).2.1
       1000000 "cid" "csec" none).2.2 = 0 ∧
    (spotifyAuthPOST (spotifyAuthPOST none 0 "cid" "csec" (some ("tok", 3600))).2.1
       1000000 "cid" "csec" none).1.access_token = some "tok" :=
  C6_token_cache_single_auth.2 0 1000000 "cid" "csec" "tok" 3600 none
    (by decide) (by decide) (by decide)

/- ### C2 — requireReal never degrades to simulation -/

theorem detectWithFacePlusPlus_down (img : String) (w : DetectWorld)
    (h : facePlusDown w) : (detectWithFacePlusPlus img w).success = false := by
  unfold detectWithFacePlusPlus
  cases hk : w.facePlusKey with
  | none => rfl
  | some k =>
    cases hs : w.facePlusSecret with
    | none => rfl
    | some sec =>
      rcases processImageForFacePlusPlus img with e | b
      · rfl
      · rcases h with h | h | h
        · rw [hk] at h; cases h
        · rw [hs] at h; cases h
        · cases hh : w.fpHttp with
          | ok faces => exact absurd hh (h faces)
          | httpError m => rfl
          | netFail m => rfl

theorem detectWithAzureFace_down (w : DetectWorld) (h : azureDown w) :
    (detectWithAzureFace w).success = false := by
  unfold detectWithAzureFace
  cases hk : w.azureKey with
  | none => rfl
  | some k =>
    cases he : w.azureEndpoint with
    | none => rfl
    | some ep =>
      rcases h with h | h | h
      · rw [hk] at h; cases h
      · rw [he] at h; cases h
      · rw [h]

theorem detectWithGoogleVision_down (w : DetectWorld) (h : googleDown w) :
    (detectWithGoogleVision w).success = false := by
  unfold detectWithGoogleVision
  cases hk : w.googleKey with
  | none => rfl
  | some k =>
    rcases h with h | h
    · rw [hk] at h; cases h
    · rw [h]

theorem detectEmotionWithAI_down (img : String) (w : DetectWorld)
    (hfp : facePlusDown w) (haz : azureDown w) (hgv : googleDown w) :
    (detectEmotionWithAI img w).success = false := by
  unfold detectEmotionWithAI
  dsimp only
  rw [detectWithFacePlusPlus_down img w hfp]
  simp only [Bool.false_eq_true, if_false]
  rw [detectWithAzureFace_down w haz]
  simp only [Bool.false_eq_true, if_false]
  rw [detectWithGoogleVision_down w hgv]
  simp only [Bool.false_eq_true, if_false]

/-- C2: (1) with `forceRealDetection` and every real provider
unreachable or unconfigured, the detection endpoint answers a 400/503
error body — never a result and never a simulation; (2) a response
tagged `simulation` can only arise from a request with
`forceRealDetection = false`. -/
theorem C2_force_real_never_simulated :
    (∀ (r : DetectRequest) (w : DetectWorld),
       r.forceRealDetection = true → allRealProvidersDown w →
       (detectPOST (some r) w).body.success = false ∧
       ((detectPOST (some r) w).status = 400 ∨ (detectPOST (some r) w).status = 503) ∧
       (detectPOST (some r) w).body.error ≠ none ∧
       (detectPOST (some r) w).service_mode ≠ some "simulation") ∧
    (∀ (r : DetectRequest) (w : DetectWorld),
       (detectPOST (some r) w).service_mode = some "simulation" →
       r.forceRealDetection = false) := by
  constructor
  · intro r w hfr hdown
    obtain ⟨hdeep, hfp, haz, hgv⟩ := hdown
    unfold detectPOST
    dsimp only
    by_cases himg : r.image = ""
    · rw [if_pos himg]
      refine ⟨?_, ?_, ?_, ?_⟩ <;> simp
    · rw [if_neg himg]
      by_cases hcred : hasFacePlusCredentials w
      · have hc1 : (r.forceRealDetection && !hasFacePlusCredentials w) = false := by
          rw [hfr, hcred]; rfl
        rw [hc1]
        simp only [Bool.false_eq_true, if_false]
        have hdf : (if w.deepfaceHealthy then w.deepfaceResult else none) = none := by
          rcases hdeep with h | h
          · rw [h]; rfl
          · rw [h]; split <;> rfl
        rw [hdf]
        have hfpf := detectWithFacePlusPlus_down r.image w hfp
        have hc2 : (hasFacePlusCredentials w &&
            (detectWithFacePlusPlus r.image w).success) = false := by
          rw [hfpf]; simp
        have hc3 : (hasFacePlusCredentials w &&
            !(detectWithFacePlusPlus r.image w).success && r.forceRealDetection) = true := by
          rw [hfpf, hcred, hfr]; rfl
        rw [hc2]
        simp only [Bool.false_eq_true, if_false]
        rw [hc3]
        simp only [if_true]
        refine ⟨?_, ?_, ?_, ?_⟩ <;> simp
      · have hc1 : (r.forceRealDetection && !hasFacePlusCredentials w) = true := by
          rw [hfr, Bool.of_not_eq_true hcred]; rfl
        rw [hc1]
        simp only [if_true]
        refine ⟨?_, ?_, ?_, ?_⟩ <;> simp
  · intro r w hmode
    cases hfr : r.forceRealDetection with
    | false => rfl
    | true =>
      exfalso
      unfold detectPOST at hmode
      dsimp only at hmode
      by_cases himg : r.image = ""
      · rw [if_pos himg] at hmode
        simp at hmode
      · rw [if_neg himg] at hmode
        by_cases hcred : hasFacePlusCredentials w
        · have hc1 : (r.forceRealDetection && !hasFacePlusCredentials w) = false := by
            rw [hfr, hcred]; rfl
          rw [hc1] at hmode
          simp only [Bool.false_eq_true, if_false] at hmode
          rcases hdf : (if w.deepfaceHealthy then w.deepfaceResult else none) with _ | result
          · rw [hdf] at hmode
            by_cases hfps : (hasFacePlusCredentials w &&
                (detectWithFacePlusPlus r.image w).success) = true
            · rw [hfps] at hmode
              simp only [if_true] at hmode
              simp at hmode
            · rw [Bool.of_not_eq_true hfps] at hmode
              simp only [Bool.false_eq_true, if_false] at hmode
              by_cases hfpe : (hasFacePlusCredentials w &&
                  !(detectWithFacePlusPlus r.image w).success && r.forceRealDetection) = true
              · rw [hfpe] at hmode
                simp only [if_true] at hmode
                simp at hmode
              · rw [Bool.of_not_eq_true hfpe] at hmode
                simp only [Bool.false_eq_true, if_false] at hmode
                by_cases hai : (detectEmotionWithAI r.image w).success = true ∧
                    ((detectEmotionWithAI r.image w).service_used != some "none") = true
                · rw [if_pos (by rw [hai.1, hai.2]; rfl)] at hmode
                  simp at hmode
                · rw [if_neg (by
                    intro hcontra
                    rw [Bool.and_eq_true] at hcontra
                    exact hai hcontra)] at hmode
                  rw [if_pos hfr] at hmode
                  simp at hmode
          · rw [hdf] at hmode
            simp at hmode
        · have hc1 : (r.forceRealDetection && !hasFacePlusCredentials w) = true := by
            rw [hfr, Bool.of_not_eq_true hcred]; rfl
          rw [hc1] at hmode
          simp only [if_true] at hmode
          simp at hmode

/-- Witness for C2 at a concrete request and the all-providers-down
world. -/
theorem C2_witness :
    (detectPOST (some { image := witnessImage, forceRealDetection := true })
      detectFailWorld).body.success = false ∧
    (detectPOST (some { image := witnessImage, forceRealDetection := true })
      detectFailWorld).service_mode ≠ some "simulation" := by
  have h := C2_force_real_never_simulated.1
    { image := witnessImage, forceRealDetection := true } detectFailWorld rfl
    ⟨Or.inl rfl, Or.inl rfl, Or.inl rfl, Or.inl rfl⟩
  exact ⟨h.1, h.2.2.2⟩

/- ### C9 — "no face found" still succeeds with the neutral default -/

theorem detectWithFacePlusPlus_noFace (img : String) (w : DetectWorld)
    (k s b : String) (hk : w.facePlusKey = some k) (hs : w.facePlusSecret = some s)
    (hproc : processImageForFacePlusPlus img = .ok b)
    (hfaces : w.fpHttp = .ok []) :
    detectWithFacePlusPlus img w = noFaceFacePlusResult := by
  unfold detectWithFacePlusPlus
  rw [hk, hs]
  dsimp only
  rw [hproc]
  dsimp only
  rw [hfaces]

/-- C9: when Face++ is configured, the local sidecar is down, the image
is valid and Face++ answers success with an empty face list, the
endpoint returns 200 with a successful result: `face_detected = false`,
dominant emotion `"neutral"`, confidence 0.3 and the fixed
low-confidence default distribution. -/
theorem C9_no_face_neutral_default :
    ∀ (r : DetectRequest) (w : DetectWorld) (k s b : String),
      r.image ≠ "" →
      w.facePlusKey = some k → w.facePlusSecret = some s →
      hasFacePlusCredentials w = true →
      deepfaceDown w →
      processImageForFacePlusPlus r.image = .ok b →
      w.fpHttp = .ok [] →
      (detectPOST (some r) w).status = 200 ∧
      (detectPOST (some r) w).service_mode = some "faceplus_direct" ∧
      (detectPOST (some r) w).body.success = true ∧
      (detectPOST (some r) w).body.face_detected = false ∧
      (detectPOST (some r) w).body.emotion = "neutral" ∧
      (detectPOST (some r) w).body.confidence = 0.3 ∧
      (detectPOST (some r) w).body.all_emotions = defaultNeutralDistribution := by
  intro r w k s b himg hk hs hcred hdeep hproc hfaces
  have hfpres := detectWithFacePlusPlus_noFace r.image w k s b hk hs hproc hfaces
  unfold detectPOST
  dsimp only
  rw [if_neg himg]
  have hc1 : (r.forceRealDetection && !hasFacePlusCredentials w) = false := by
    rw [hcred]
    simp
  rw [hc1]
  simp only [Bool.false_eq_true, if_false]
  have hdf : (if w.deepfaceHealthy then w.deepfaceResult else none) = none := by
    rcases hdeep with h | h
    · rw [h]; rfl
    · rw [h]; split <;> rfl
  rw [hdf]
  have hc2 : (hasFacePlusCredentials w &&
      (detectWithFacePlusPlus r.image w).success) = true := by
    rw [hcred, hfpres]; rfl
  rw [hc2]
  simp only [if_true]
  rw [hfpres]
  refine ⟨?_, ?_, ?_, ?_, ?_, ?_, ?_⟩ <;> simp [noFaceFacePlusResult]

/-- Witness for C9 at the concrete no-face world and image. -/
theorem C9_witness :
    (detectPOST (some { image := witnessImage, forceRealDetection := false })
      fpNoFaceWorld).body.success = true ∧
    (detectPOST (some { image := witnessImage, forceRealDetection := false })
      fpNoFaceWorld).body.face_detected = false ∧
    (detectPOST (some { image := witnessImage, forceRealDetection := false })
      fpNoFaceWorld).body.emotion = "neutral" := by
  have h := C9_no_face_neutral_default
    { image := witnessImage, forceRealDetection := false } fpNoFaceWorld
    "fppkey" "fppsecret" "c2FtcGxlaW1hZ2ViYXNlNjQ="
    (by decide) rfl rfl rfl (Or.inl rfl) rfl rfl
  exact ⟨h.2.2.1, h.2.2.2.1, h.2.2.2.2.1⟩

/- ### Simulator arithmetic lemmas (for C3 and C4) -/

theorem simBoost_ge_one (p e : String) : 1 ≤ simBoost p e := by
  unfold simBoost
  split
  · norm_num
  · split
    · norm_num
    · split
      · norm_num
      · norm_num

theorem simDistribute_keys (primary : String) (rands : Nat → ℚ) :
    ∀ (l : List String) (idx : Nat) (rem : ℚ),
      (simDistribute primary rands l idx rem).map Prod.fst = l := by
  intro l
  induction l with
  | nil => intro idx rem; rfl
  | cons e rest ih =>
    intro idx rem
    cases rest with
    | nil => rfl
    | cons e2 rest2 =>
      simp only [simDistribute, List.map_cons, List.cons.injEq, true_and]
      exact ih _ _

theorem simDistribute_bounds (primary : String) (rands : Nat → ℚ)
    (hr : ∀ i, 0 ≤ rands i ∧ rands i ≤ 1) :
    ∀ (l : List String) (idx : Nat) (rem : ℚ), (0.01 : ℚ) ≤ rem →
      ∀ p ∈ simDistribute primary rands l idx rem,
        0 ≤ p.2 ∧ p.2 ≤ max (0.01 : ℚ) rem := by
  intro l
  induction l with
  | nil => intro idx rem hrem p hp; simp [simDistribute] at hp
  | cons e rest ih =>
    intro idx rem hrem p hp
    cases rest with
    | nil =>
      simp only [simDistribute, List.mem_singleton] at hp
      subst hp
      refine ⟨?_, le_refl _⟩
      have : (0 : ℚ) ≤ 0.01 := by norm_num
      exact le_trans this (le_max_left _ _)
    | cons e2 rest2 =>
      simp only [simDistribute] at hp
      have hboost := simBoost_ge_one primary e
      have hri := hr idx
      have hmaxA : (0 : ℚ) < rem * 0.6 * simBoost primary e := by nlinarith
      have hscore : (0 : ℚ) <
          rands idx * (rem * 0.6 * simBoost primary e - 0.01) + 0.01 := by
        rcases le_or_lt (0.01 : ℚ) (rem * 0.6 * simBoost primary e) with hc | hc
        · nlinarith
        · nlinarith
      rcases List.mem_cons.mp hp with hhead | htail
      · subst hhead
        constructor
        · dsimp only
          apply le_min
          · exact le_of_lt hscore
          · linarith
        · dsimp only
          have h1 : min (rands idx * (rem * 0.6 * simBoost primary e - 0.01) + 0.01)
              (rem - 0.01) ≤ rem - 0.01 := min_le_right _ _
          have h2 : rem - (0.01 : ℚ) ≤ rem := by linarith
          exact le_trans (le_trans h1 h2) (le_max_right _ _)
      · set assigned := min (rands idx * (rem * 0.6 * simBoost primary e - 0.01) + 0.01)
          (rem - 0.01) with hassigned
        have hass_nonneg : 0 ≤ assigned := by
          apply le_min
          · exact le_of_lt hscore
          · linarith
        have hass_le : assigned ≤ rem - 0.01 := min_le_right _ _
        have hrem' : (0.01 : ℚ) ≤ rem - assigned := by linarith
        have := ih (idx + 1) (rem - assigned) hrem' p htail
        refine ⟨this.1, le_trans this.2 ?_⟩
        apply max_le
        · exact le_max_left _ _
        · exact le_trans (by linarith : rem - assigned ≤ rem) (le_max_right _ _)

theorem baseConfidence_bounds (p : String) :
    (0.6 : ℚ) ≤ (jsLookupD baseConfidence p (0.60, 0.85)).1 ∧
    (jsLookupD baseConfidence p (0.60, 0.85)).1 ≤ (jsLookupD baseConfidence p (0.60, 0.85)).2 ∧
    (jsLookupD baseConfidence p (0.60, 0.85)).2 ≤ (0.95 : ℚ) := by
  unfold jsLookupD
  rcases h : baseConfidence.lookup p with _ | v
  · norm_num
  · have hv : v ∈ baseConfidence.map Prod.snd :=
      List.mem_map_of_mem Prod.snd (lookup_mem_of_some h)
    simp only [baseConfidence, List.map_cons, List.map_nil, List.mem_cons,
      List.not_mem_nil, or_false] at hv
    rcases hv with rfl | rfl | rfl | rfl | rfl | rfl | rfl <;> norm_num

theorem sim_assemble (primary : String) (conf : ℚ) (others : List (String × ℚ))
    (hconf : (0.6 : ℚ) ≤ conf)
    (hnn : ∀ p ∈ others, 0 ≤ p.2)
    (hlt : ∀ p ∈ others, p.2 < conf)
    (hnm : primary ∉ others.map Prod.fst) :
    sumDist ((others ++ [(primary, conf)]).map
      (fun p => (p.1, p.2 / sumDist (others ++ [(primary, conf)])))) = 1 ∧
    ((others ++ [(primary, conf)]).map
      (fun p => (p.1, p.2 / sumDist (others ++ [(primary, conf)])))).lookup primary =
      some (conf / sumDist (others ++ [(primary, conf)])) ∧
    ∀ p ∈ (others ++ [(primary, conf)]).map
      (fun p => (p.1, p.2 / sumDist (others ++ [(primary, conf)]))),
      p.2 ≤ conf / sumDist (others ++ [(primary, conf)]) := by
  have hsingle : sumDist [(primary, conf)] = conf := by
    simp [sumDist]
  have htotal_eq : sumDist (others ++ [(primary, conf)]) = sumDist others + conf := by
    rw [sumDist_append, hsingle]
  have hsum_nonneg : 0 ≤ sumDist others := sumDist_nonneg others hnn
  have htotal_pos : 0 < sumDist (others ++ [(primary, conf)]) := by
    rw [htotal_eq]; linarith
  refine ⟨?_, ?_, ?_⟩
  · rw [sumDist_map_div, div_self (ne_of_gt htotal_pos)]
  · have hmapkeys : primary ∉ (others.map
        (fun p => (p.1, p.2 / sumDist (others ++ [(primary, conf)])))).map Prod.fst := by
      rw [List.map_map]
      have : (Prod.fst ∘ fun p : String × ℚ =>
          (p.1, p.2 / sumDist (others ++ [(primary, conf)]))) = Prod.fst := by
        funext q; rfl
      rw [this]
      exact hnm
    have hsplit : (others ++ [(primary, conf)]).map
        (fun p => (p.1, p.2 / sumDist (others ++ [(primary, conf)]))) =
        others.map (fun p => (p.1, p.2 / sumDist (others ++ [(primary, conf)]))) ++
        [(primary, conf / sumDist (others ++ [(primary, conf)]))] := by
      rw [List.map_append]
      rfl
    rw [hsplit]
    exact lookup_append_singleton hmapkeys
  · intro p hp
    rw [List.mem_map] at hp
    obtain ⟨q, hq, rfl⟩ := hp
    rcases List.mem_append.mp hq with hq | hq
    · exact (div_le_div_iff_of_pos_right htotal_pos).mpr (le_of_lt (hlt q hq))
    · rcases List.mem_singleton.mp hq with rfl
      exact le_refl _

theorem generateRealisticEmotion_facts (img : Option String) (w : SimWorld)
    (hv : simRandsValid w) :
    sumDist (generateRealisticEmotion img w).all_emotions = 1 ∧
    ∃ v, (generateRealisticEmotion img w).all_emotions.lookup
        (generateRealisticEmotion img w).emotion = some v ∧
      ∀ p ∈ (generateRealisticEmotion img w).all_emotions, p.2 ≤ v := by
  obtain ⟨hs0, hs1, hc0, hc1, hsec⟩ := hv
  unfold generateRealisticEmotion
  dsimp only
  set iv := simImageVariance img with hiv
  set probs := simProbabilities w.hours w.dayOfWeek iv with hprobs
  set primary := (selectWalk w.rSelect probs).getD "neutral" with hprimary
  set range := jsLookupD baseConfidence primary (0.60, 0.85) with hrange
  set conf := w.rConf * (range.2 - range.1) + range.1 with hconf
  set otherEs := (probs.map Prod.fst).filter (fun e => e ≠ primary) with hothersE
  set others := simDistribute primary w.rSecondary otherEs 0 (1 - conf) with hoth
  obtain ⟨hb1, hb2, hb3⟩ := baseConfidence_bounds primary
  rw [← hrange] at hb1 hb2 hb3
  have hconf06 : (0.6 : ℚ) ≤ conf := by
    rw [hconf]
    nlinarith
  have hconf95 : conf ≤ (0.95 : ℚ) := by
    rw [hconf]
    nlinarith
  have hrem : (0.01 : ℚ) ≤ 1 - conf := by linarith
  have hbounds := simDistribute_bounds primary w.rSecondary
    (fun i => ⟨(hsec i).1, le_of_lt (hsec i).2⟩) otherEs 0 (1 - conf) hrem
  have hnn : ∀ p ∈ others, 0 ≤ p.2 := fun p hp => (hbounds p (hoth ▸ hp)).1
  have hlt : ∀ p ∈ others, p.2 < conf := by
    intro p hp
    have h2 := (hbounds p (hoth ▸ hp)).2
    have hmax : max (0.01 : ℚ) (1 - conf) ≤ 0.4 := by
      apply max_le <;> linarith
    linarith
  have hnm : primary ∉ others.map Prod.fst := by
    rw [hoth, simDistribute_keys]
    intro hmem
    have := (List.mem_filter.mp hmem).2
    simp at this
  have h := sim_assemble primary conf others hconf06 hnn hlt hnm
  exact ⟨h.1, conf / sumDist (others ++ [(primary, conf)]), h.2.1, h.2.2⟩

/- ### Provider argmax lemmas (for C4) -/

theorem argmax_lookup (entries : List (String × ℚ)) (dom0 : String) (mx0 : ℚ)
    (hnd : (entries.map Prod.fst).Nodup)
    (hinit : ∃ v0, entries.lookup dom0 = some v0 ∧ mx0 ≤ v0) :
    ∃ v, entries.lookup (argmaxFold entries dom0 mx0).1 = some v ∧
      ∀ p ∈ entries, p.2 ≤ v := by
  rcases argmaxFold_eq_init_or_mem entries dom0 mx0 with heq | hmem
  · obtain ⟨v0, hl, hle⟩ := hinit
    refine ⟨v0, by rw [heq]; exact hl, ?_⟩
    intro p hp
    have h := argmaxFold_ge_mem entries dom0 mx0 p hp
    rw [heq] at h
    exact le_trans h hle
  · exact ⟨(argmaxFold entries dom0 mx0).2, lookup_of_mem_nodup hnd hmem,
      argmaxFold_ge_mem entries dom0 mx0⟩

theorem fppEntries_keys (e : FPPEmotions) :
    (fppEntries e).map Prod.fst =
      ["happy", "sad", "angry", "surprised", "neutral", "disgust", "fear"] := rfl

theorem fpp_face_argmax (e : FPPEmotions)
    (hnn : 0 ≤ e.happiness ∧ 0 ≤ e.sadness ∧ 0 ≤ e.anger ∧ 0 ≤ e.surprise ∧
           0 ≤ e.neutral ∧ 0 ≤ e.disgust ∧ 0 ≤ e.fear) :
    ∃ v, (fppEntries e).lookup (argmaxFold (fppEntries e) "neutral" 0).1 = some v ∧
      ∀ p ∈ fppEntries e, p.2 ≤ v := by
  apply argmax_lookup
  · rw [fppEntries_keys]
    decide
  · refine ⟨e.neutral / 100, ?_, ?_⟩
    · have hndk : ((fppEntries e).map Prod.fst).Nodup := by
        rw [fppEntries_keys]; decide
      have hmemN : (("neutral", e.neutral / 100) : String × ℚ) ∈ fppEntries e := by
        simp [fppEntries]
      exact lookup_of_mem_nodup hndk hmemN
    · exact div_nonneg hnn.2.2.2.2.1 (by norm_num)

theorem azureEntries_keys (e : AzureEmotions) :
    (azureEntries e).map Prod.fst =
      ["anger", "contempt", "disgust", "fear", "happy", "neutral", "sad", "surprise"] := rfl

theorem azure_face_argmax (e : AzureEmotions)
    (hnn : 0 ≤ e.anger ∧ 0 ≤ e.contempt ∧ 0 ≤ e.disgust ∧ 0 ≤ e.fear ∧
           0 ≤ e.happiness ∧ 0 ≤ e.neutral ∧ 0 ≤ e.sadness ∧ 0 ≤ e.surprise) :
    ∃ v, (azureEntries e).lookup (argmaxFold (azureEntries e) "neutral" 0).1 = some v ∧
      ∀ p ∈ azureEntries e, p.2 ≤ v := by
  apply argmax_lookup
  · rw [azureEntries_keys]
    decide
  · refine ⟨e.neutral, ?_, hnn.2.2.2.2.2.1⟩
    have hndk : ((azureEntries e).map Prod.fst).Nodup := by
      rw [azureEntries_keys]; decide
    have hmemN : (("neutral", e.neutral) : String × ℚ) ∈ azureEntries e := by
      simp [azureEntries]
    exact lookup_of_mem_nodup hndk hmemN

theorem gv_face_argmax (cj cs ca csu : ℚ) :
    ∃ v, ([("happy", cj), ("sad", cs), ("angry", ca), ("surprised", csu),
           ("neutral", (0.5 : ℚ)), ("disgust", (0.05 : ℚ)), ("fear", (0.05 : ℚ))].lookup
        (argmaxFold [("happy", cj), ("sad", cs), ("angry", ca), ("surprised", csu)]
          "neutral" 0.5).1) = some v ∧
      ∀ p ∈ [("happy", cj), ("sad", cs), ("angry", ca), ("surprised", csu),
             ("neutral", (0.5 : ℚ)), ("disgust", (0.05 : ℚ)), ("fear", (0.05 : ℚ))],
        p.2 ≤ v := by
  set updates : List (String × ℚ) :=
    [("happy", cj), ("sad", cs), ("angry", ca), ("surprised", csu)] with hupd
  have hsplit : ([("happy", cj), ("sad", cs), ("angry", ca), ("surprised", csu),
      ("neutral", (0.5 : ℚ)), ("disgust", (0.05 : ℚ)), ("fear", (0.05 : ℚ))] :
        List (String × ℚ)) =
      updates ++ [("neutral", (0.5 : ℚ)), ("disgust", (0.05 : ℚ)), ("fear", (0.05 : ℚ))] :=
    rfl
  have hnd : (([("happy", cj), ("sad", cs), ("angry", ca), ("surprised", csu),
      ("neutral", (0.5 : ℚ)), ("disgust", (0.05 : ℚ)), ("fear", (0.05 : ℚ))] :
        List (String × ℚ)).map Prod.fst).Nodup := by
    have : ([("happy", cj), ("sad", cs), ("angry", ca), ("surprised", csu),
        ("neutral", (0.5 : ℚ)), ("disgust", (0.05 : ℚ)), ("fear", (0.05 : ℚ))] :
          List (String × ℚ)).map Prod.fst =
        ["happy", "sad", "angry", "surprised", "neutral", "disgust", "fear"] := rfl
    rw [this]
    decide
  have hinit := argmaxFold_ge_init updates "neutral" 0.5
  rcases argmaxFold_eq_init_or_mem updates "neutral" 0.5 with heq | hmem
  · refine ⟨0.5, ?_, ?_⟩
    · rw [heq]
      have hmemN : (("neutral", (0.5 : ℚ)) : String × ℚ) ∈
          [("happy", cj), ("sad", cs), ("angry", ca), ("surprised", csu),
           ("neutral", (0.5 : ℚ)), ("disgust", (0.05 : ℚ)), ("fear", (0.05 : ℚ))] := by
        simp
      exact lookup_of_mem_nodup hnd hmemN
    · intro p hp
      rw [hsplit] at hp
      rcases List.mem_append.mp hp with hp | hp
      · have := argmaxFold_ge_mem updates "neutral" 0.5 p hp
        rw [heq] at this
        exact this
      · simp only [List.mem_cons, List.not_mem_nil, or_false] at hp
        rcases hp with rfl | rfl | rfl <;> norm_num
  · refine ⟨(argmaxFold updates "neutral" 0.5).2, ?_, ?_⟩
    · exact lookup_of_mem_nodup hnd (hsplit ▸ List.mem_append_left _ hmem)
    · intro p hp
      rw [hsplit] at hp
      rcases List.mem_append.mp hp with hp | hp
      · exact argmaxFold_ge_mem updates "neutral" 0.5 p hp
      · simp only [List.mem_cons, List.not_mem_nil, or_false] at hp
        rcases hp with rfl | rfl | rfl <;> simp <;> linarith

/- ### C4 — the reported dominant emotion is an argmax -/

/-- C4: for every successful result of the Face++ mapper (with the
provider's percentage scores nonnegative), the Azure mapper (likewise),
the Google Vision mapper and the simulator, the reported dominant
emotion's entry in `all_emotions` is maximal: no label has a strictly
greater value. -/
theorem C4_dominant_is_argmax :
    (∀ (img : String) (w : DetectWorld), fppScoresNonneg w →
      (detectWithFacePlusPlus img w).success = true →
      dominantIsMax (detectWithFacePlusPlus img w)) ∧
    (∀ w : DetectWorld, azureScoresNonneg w →
      (detectWithAzureFace w).success = true →
      dominantIsMax (detectWithAzureFace w)) ∧
    (∀ w : DetectWorld, (detectWithGoogleVision w).success = true →
      dominantIsMax (detectWithGoogleVision w)) ∧
    (∀ (img : Option String) (w : SimWorld), simRandsValid w →
      dominantIsMax (generateRealisticEmotion img w)) := by
  refine ⟨?_, ?_, ?_, ?_⟩
  · intro img w hnnW hsucc
    unfold detectWithFacePlusPlus at hsucc ⊢
    cases hk : w.facePlusKey with
    | none => simp only [hk] at hsucc; cases hsucc
    | some k =>
      cases hs : w.facePlusSecret with
      | none => simp only [hk, hs] at hsucc; cases hsucc
      | some sec =>
        simp only [hk, hs] at hsucc ⊢
        rcases hpr : processImageForFacePlusPlus img with msg | b64
        · rw [hpr] at hsucc
          simp at hsucc
        · rw [hpr] at hsucc
          dsimp only at hsucc ⊢
          cases hh : w.fpHttp with
          | httpError m => rw [hh] at hsucc; simp at hsucc
          | netFail m => rw [hh] at hsucc; simp at hsucc
          | ok faces =>
            rw [hh] at hsucc
            dsimp only at hsucc ⊢
            cases faces with
            | nil =>
              refine ⟨0.5, rfl, ?_⟩
              show ∀ p ∈ defaultNeutralDistribution, p.2 ≤ (0.5 : ℚ)
              intro p hp
              simp only [defaultNeutralDistribution, List.mem_cons, List.not_mem_nil,
                or_false] at hp
              rcases hp with rfl | rfl | rfl | rfl | rfl | rfl | rfl <;> norm_num
            | cons face rest =>
              have hsn := hnnW (face :: rest) hh face (List.mem_cons_self _ _)
              exact fpp_face_argmax face.emotions hsn
  · intro w hnnW hsucc
    unfold detectWithAzureFace at hsucc ⊢
    cases hk : w.azureKey with
    | none => simp only [hk] at hsucc; cases hsucc
    | some k =>
      cases he : w.azureEndpoint with
      | none => simp only [hk, he] at hsucc; cases hsucc
      | some ep =>
        simp only [hk, he] at hsucc ⊢
        cases hh : w.azHttp with
        | none => rw [hh] at hsucc; simp at hsucc
        | some faces =>
          rw [hh] at hsucc
          dsimp only at hsucc ⊢
          cases faces with
          | nil =>
            refine ⟨0.5, rfl, ?_⟩
            show ∀ p ∈ defaultNeutralDistribution, p.2 ≤ (0.5 : ℚ)
            intro p hp
            simp only [defaultNeutralDistribution, List.mem_cons, List.not_mem_nil,
              or_false] at hp
            rcases hp with rfl | rfl | rfl | rfl | rfl | rfl | rfl <;> norm_num
          | cons f rest =>
            have hsn := hnnW (f :: rest) hh f (List.mem_cons_self _ _)
            exact azure_face_argmax f hsn
  · intro w hsucc
    unfold detectWithGoogleVision at hsucc ⊢
    cases hk : w.googleKey with
    | none => simp only [hk] at hsucc; cases hsucc
    | some k =>
      simp only [hk] at hsucc ⊢
      cases hh : w.gvHttp with
      | none => rw [hh] at hsucc; simp at hsucc
      | some inner =>
        rw [hh] at hsucc
        cases inner with
        | none =>
          refine ⟨0.5, rfl, ?_⟩
          show ∀ p ∈ defaultNeutralDistribution, p.2 ≤ (0.5 : ℚ)
          intro p hp
          simp only [defaultNeutralDistribution, List.mem_cons, List.not_mem_nil,
            or_false] at hp
          rcases hp with rfl | rfl | rfl | rfl | rfl | rfl | rfl <;> norm_num
        | some f =>
          exact gv_face_argmax (likelihoodToConfidence f.joyLikelihood)
            (likelihoodToConfidence f.sorrowLikelihood)
            (likelihoodToConfidence f.angerLikelihood)
            (likelihoodToConfidence f.surpriseLikelihood)
  · intro img w hv
    exact (generateRealisticEmotion_facts img w hv).2

/-- Witness for C4: the four providers at concrete worlds (no-face
Face++ and Azure answers, a one-face Google Vision answer, and the fixed
simulator context). -/
theorem C4_witness :
    dominantIsMax (detectWithFacePlusPlus witnessImage fpNoFaceWorld) ∧
    dominantIsMax (detectWithAzureFace azNoFaceWorld) ∧
    dominantIsMax (detectWithGoogleVision gvLikelyWorld) ∧
    dominantIsMax (generateRealisticEmotion none simWitnessWorld) := by
  refine ⟨?_, ?_, ?_, ?_⟩
  · refine C4_dominant_is_argmax.1 witnessImage fpNoFaceWorld ?_ rfl
    intro faces hfa f hfmem
    injection hfa with h
    rw [← h] at hfmem
    cases hfmem
  · refine C4_dominant_is_argmax.2.1 azNoFaceWorld ?_ rfl
    intro faces hfa f hfmem
    injection hfa with h
    rw [← h] at hfmem
    cases hfmem
  · exact C4_dominant_is_argmax.2.2.1 gvLikelyWorld rfl
  · refine C4_dominant_is_argmax.2.2.2 none simWitnessWorld ?_
    refine ⟨by norm_num [simWitnessWorld], by norm_num [simWitnessWorld],
      by norm_num [simWitnessWorld], by norm_num [simWitnessWorld],
      fun i => ⟨by norm_num [simWitnessWorld], by norm_num [simWitnessWorld]⟩⟩

/- ### C3 — distribution sums -/

/-- Counterexample to C3: a perfectly ordinary successful Google Vision
result (one face, every likelihood `VERY_LIKELY`) has an `all_emotions`
that sums to 4.2, not 1.0 ± 1e-6: the mapper overwrites a base
distribution that already sums to 1 with four likelihood confidences and
never renormalizes. -/
theorem C3_counterexample :
    (detectWithGoogleVision gvLikelyWorld).success = true ∧
    sumDist (detectWithGoogleVision gvLikelyWorld).all_emotions = 21 / 5 ∧
    ¬ (|sumDist (detectWithGoogleVision gvLikelyWorld).all_emotions - 1| ≤ 1 / 1000000) := by
  have h : (detectWithGoogleVision gvLikelyWorld).all_emotions =
      [("happy", (0.9 : ℚ)), ("sad", 0.9), ("angry", 0.9), ("surprised", 0.9),
       ("neutral", 0.5), ("disgust", 0.05), ("fear", 0.05)] := rfl
  have hsum : sumDist (detectWithGoogleVision gvLikelyWorld).all_emotions = 21 / 5 := by
    rw [h]
    norm_num [sumDist]
  refine ⟨rfl, hsum, ?_⟩
  rw [hsum]
  intro hcontra
  rw [abs_le] at hcontra
  have := hcontra.2
  norm_num at this

/-- C3 (amended): the fixed no-face default distribution sums to 1; a
Face++ success distribution sums to 1 exactly when the provider's raw
percentage scores sum to 100 (the mapper only divides by 100, it does
not renormalize); and the simulator's distribution always sums to
exactly 1 (it renormalizes). Google-Vision-mapped distributions need
not sum to 1 (see the counterexample). -/
theorem C3_amended_distribution_sums :
    sumDist defaultNeutralDistribution = 1 ∧
    (∀ e : FPPEmotions, sumDist (fppEntries e) = 1 ↔
      e.happiness + e.sadness + e.anger + e.surprise + e.neutral +
        e.disgust + e.fear = 100) ∧
    (∀ (img : Option String) (w : SimWorld), simRandsValid w →
      sumDist (generateRealisticEmotion img w).all_emotions = 1) := by
  refine ⟨?_, ?_, ?_⟩
  · norm_num [sumDist, defaultNeutralDistribution]
  · intro e
    have hsum : sumDist (fppEntries e) =
        (e.happiness + e.sadness + e.anger + e.surprise + e.neutral +
          e.disgust + e.fear) / 100 := by
      simp only [sumDist, fppEntries, List.map_cons, List.map_nil, List.foldr_cons,
        List.foldr_nil]
      ring
    rw [hsum]
    constructor
    · intro h
      have h100 : (100 : ℚ) ≠ 0 := by norm_num
      field_simp at h
      linarith
    · intro h
      rw [h]
      norm_num
  · intro img w hv
    exact (generateRealisticEmotion_facts img w hv).1

/-- Witness for C3 (amended) at a concrete Face++ score tuple summing to
100 and the fixed simulator context. -/
theorem C3_witness :
    sumDist (fppEntries ⟨40, 10, 10, 10, 20, 5, 5⟩) = 1 ∧
    sumDist (generateRealisticEmotion none simWitnessWorld).all_emotions = 1 :=
  ⟨(C3_amended_distribution_sums.2.1 ⟨40, 10, 10, 10, 20, 5, 5⟩).mpr (by norm_num),
   C3_amended_distribution_sums.2.2 none simWitnessWorld
     ⟨by norm_num [simWitnessWorld], by norm_num [simWitnessWorld],
      by norm_num [simWitnessWorld], by norm_num [simWitnessWorld],
      fun i => ⟨by norm_num [simWitnessWorld], by norm_num [simWitnessWorld]⟩⟩⟩
